import Mathlib

/-!
# Pomodoro timer engine (src/src/pomodoro.c): shallow embedding

The engine is one statically allocated `pomodoro_context` guarded by a mutex,
two kernel timers and a display collaborator.  Every entry point holds the
mutex for all of its mutations (`refresh_display_locked`, which drops the mutex
around the display call, is always its last action), so an entry point is
modelled as one atomic step on a `world`: the context, the pending delay of
the delayable work item `minute_tick_work`, and the list of calls made to
`pomodoro_display_update`.

Clock: every `k_uptime_get()` made by one entry point reads the same value
`now` (milliseconds, `int64_t`).  Machine integers are `Nat`/`Int`; the 32-bit
and 8-bit unsigned operations carry an explicit `%`.
-/

namespace Pomodoro

/-- The enum `pomodoro_state` of include/pomodoro.h. -/
inductive pomodoro_state where
  | POMODORO_STATE_IDLE
  | POMODORO_STATE_WORK
  | POMODORO_STATE_BREAK
  | POMODORO_STATE_PAUSED
deriving DecidableEq, Repr

/-- The enum `pomodoro_phase` of pomodoro.c. -/
inductive pomodoro_phase where
  | POMODORO_PHASE_NONE
  | POMODORO_PHASE_WORK
  | POMODORO_PHASE_BREAK
deriving DecidableEq, Repr

open pomodoro_state pomodoro_phase

/-- Work duration in seconds, `25 * 60`. -/
def POMODORO_DEFAULT_WORK_SECONDS : Nat := 25 * 60

/-- Break duration in seconds, `5 * 60`. -/
def POMODORO_DEFAULT_BREAK_SECONDS : Nat := 5 * 60

/-- Number of sessions in a cycle. -/
def POMODORO_MAX_SESSIONS : Nat := 4

/-- Alias used inside pomodoro.c. -/
def POMODORO_WORK_SECONDS : Nat := POMODORO_DEFAULT_WORK_SECONDS

/-- Alias used inside pomodoro.c. -/
def POMODORO_BREAK_SECONDS : Nat := POMODORO_DEFAULT_BREAK_SECONDS

/-- Upper bound, in seconds, of one completion-check delay. -/
def POMODORO_MINUTE_CHUNK : Nat := 60

/-- Modulus of `uint32_t` arithmetic. -/
def UINT32_MOD : Nat := 4294967296

/-- Modulus of `uint8_t` arithmetic. -/
def UINT8_MOD : Nat := 256

/-- Build-time configuration.  The Kconfig file is not part of the sources, so
the two symbols the engine reads are parameters:
`CONFIG_ZMK_POMODORO_BREAK_EXTEND_LIMIT_MINUTES` and
`CONFIG_ZMK_POMODORO_RESUME_ON_ANY_KEY`. -/
structure config where
  BREAK_EXTEND_LIMIT_MINUTES : Nat
  RESUME_ON_ANY_KEY : Bool
deriving DecidableEq, Repr

/-- The expression `CONFIG_ZMK_POMODORO_BREAK_EXTEND_LIMIT_MINUTES * 60`. -/
def config.ceiling (cfg : config) : Nat := cfg.BREAK_EXTEND_LIMIT_MINUTES * 60

/-- The constant expression above is a C `int`: it is well formed when it does
not overflow that type. -/
def config.valid (cfg : config) : Prop := cfg.ceiling < 2147483648

instance (cfg : config) : Decidable cfg.valid := by
  unfold config.valid; exact inferInstance

/-- The struct `pomodoro_context` without its mutex.  `session` is `uint8_t`,
`phase_length_s` and `elapsed_s` are `uint32_t`, `phase_started_ms` is
`int64_t`. -/
structure pomodoro_context where
  state : pomodoro_state
  phase : pomodoro_phase
  session : Nat
  phase_length_s : Nat
  elapsed_s : Nat
  phase_started_ms : Int
  ui_timer_running : Bool
deriving DecidableEq, Repr

/-- The struct `pomodoro_status` of include/pomodoro.h. -/
structure pomodoro_status where
  state : pomodoro_state
  session : Nat
  max_sessions : Nat
  on_break : Bool
  paused : Bool
  remaining_seconds : Nat
  phase_total_seconds : Nat
  resume_on_any_key : Bool
deriving DecidableEq, Repr

/-- The context together with what the engine drives outside it:
`minute_tick_work` is `some d` when the delayable work item is pending with a
delay of `d` seconds counted from the call that armed it, `none` when it is
not pending; `display` lists the calls that `refresh_display_locked` makes to
`pomodoro_display_update`, oldest first, each with its `force` argument.  The
periodic `ui_timer` itself is mirrored by `ctx.ui_timer_running`. -/
structure world where
  ctx : pomodoro_context
  minute_tick_work : Option Nat
  display : List (pomodoro_status × Bool)
deriving DecidableEq, Repr

/-- The static initialiser of `ctx`. -/
def ctx_init : pomodoro_context :=
  { state := POMODORO_STATE_IDLE
    phase := POMODORO_PHASE_NONE
    session := 0
    phase_length_s := POMODORO_WORK_SECONDS
    elapsed_s := 0
    phase_started_ms := 0
    ui_timer_running := false }

/-- The system before the first entry point runs. -/
def world_init : world :=
  { ctx := ctx_init, minute_tick_work := none, display := [] }

/-- Embeds `is_running`. -/
def is_running (c : pomodoro_context) : Bool :=
  c.state == POMODORO_STATE_WORK || c.state == POMODORO_STATE_BREAK

/-- Embeds `is_break_phase`. -/
def is_break_phase (c : pomodoro_context) : Bool :=
  c.phase == POMODORO_PHASE_BREAK

/-- Embeds `current_elapsed_locked`.  The `int64_t` difference of two uptime readings
is taken exactly; `delta_ms / 1000` is evaluated only for `delta_ms > 0`, where
the truncating division of C is the division of `Int`; its conversion to
`uint32_t` and the `uint32_t` sum carry the modulus. -/
def current_elapsed_locked (now : Int) (c : pomodoro_context) : Nat :=
  if !is_running c then c.elapsed_s
  else
    let delta_ms : Int := now - c.phase_started_ms
    let delta_s : Nat := if delta_ms > 0 then (delta_ms / 1000).toNat % UINT32_MOD else 0
    let total : Nat := (c.elapsed_s + delta_s) % UINT32_MOD
    min total c.phase_length_s

/-- Embeds `remaining_locked`. -/
def remaining_locked (now : Int) (c : pomodoro_context) : Nat :=
  let elapsed := current_elapsed_locked now c
  if elapsed ≥ c.phase_length_s then 0 else c.phase_length_s - elapsed

/-- Embeds `snapshot_locked`. -/
def snapshot_locked (cfg : config) (now : Int) (c : pomodoro_context) : pomodoro_status :=
  { state := c.state
    session := c.session
    max_sessions := POMODORO_MAX_SESSIONS
    on_break := c.phase == POMODORO_PHASE_BREAK
    paused := c.state == POMODORO_STATE_PAUSED
    remaining_seconds := remaining_locked now c
    phase_total_seconds := c.phase_length_s
    resume_on_any_key := cfg.RESUME_ON_ANY_KEY }

/-- Embeds `start_ui_timer_locked`. -/
def start_ui_timer_locked (w : world) : world :=
  if !w.ctx.ui_timer_running then { w with ctx := { w.ctx with ui_timer_running := true } }
  else w

/-- Embeds `stop_ui_timer_locked`. -/
def stop_ui_timer_locked (w : world) : world :=
  if w.ctx.ui_timer_running then { w with ctx := { w.ctx with ui_timer_running := false } }
  else w

/-- Embeds `refresh_display_locked`: one call to `pomodoro_display_update`. -/
def refresh_display_locked (cfg : config) (now : Int) (force : Bool) (w : world) : world :=
  { w with display := w.display ++ [(snapshot_locked cfg now w.ctx, force)] }

/-- Embeds `reset_phase_timing_locked`. -/
def reset_phase_timing_locked (now : Int) (w : world) : world :=
  { w with ctx := { w.ctx with elapsed_s := 0, phase_started_ms := now } }

/-- Embeds `schedule_minute_tick_locked`. -/
def schedule_minute_tick_locked (now : Int) (w : world) : world :=
  if !is_running w.ctx then w
  else
    let remaining := remaining_locked now w.ctx
    let delay_s := if remaining > POMODORO_MINUTE_CHUNK then POMODORO_MINUTE_CHUNK else remaining
    { w with minute_tick_work := some (max delay_s 1) }

/-- Embeds `start_phase_locked`. -/
def start_phase_locked (now : Int) (phase : pomodoro_phase) (reset_session : Bool)
    (w : world) : world :=
  let c := w.ctx
  let c := { c with phase := phase }
  let c := { c with state :=
    if phase = POMODORO_PHASE_WORK then POMODORO_STATE_WORK else POMODORO_STATE_BREAK }
  let c := { c with phase_length_s :=
    if phase = POMODORO_PHASE_WORK then POMODORO_WORK_SECONDS else POMODORO_BREAK_SECONDS }
  let c := if reset_session then { c with session := 1 }
           else if c.session = 0 then { c with session := 1 }
           else c
  let w := { w with ctx := c }
  let w := reset_phase_timing_locked now w
  let w := start_ui_timer_locked w
  schedule_minute_tick_locked now w

/-- Embeds `cancel_timers_locked`. -/
def cancel_timers_locked (w : world) : world :=
  stop_ui_timer_locked { w with minute_tick_work := none }

/-- Embeds `complete_work_locked`. -/
def complete_work_locked (now : Int) (w : world) : world :=
  let w := { w with ctx := { w.ctx with
    elapsed_s := 0
    phase_started_ms := now
    phase := POMODORO_PHASE_BREAK
    state := POMODORO_STATE_BREAK
    phase_length_s := POMODORO_BREAK_SECONDS } }
  let w := start_ui_timer_locked w
  schedule_minute_tick_locked now w

/-- Embeds `complete_break_locked`. -/
def complete_break_locked (now : Int) (w : world) : world :=
  let w := { w with ctx := { w.ctx with session := (w.ctx.session + 1) % UINT8_MOD } }
  if w.ctx.session > POMODORO_MAX_SESSIONS then
    let w := { w with ctx := { w.ctx with
      session := 0
      state := POMODORO_STATE_IDLE
      phase := POMODORO_PHASE_NONE
      elapsed_s := 0
      phase_started_ms := 0
      phase_length_s := POMODORO_WORK_SECONDS } }
    cancel_timers_locked w
  else
    let w := { w with ctx := { w.ctx with
      phase := POMODORO_PHASE_WORK
      state := POMODORO_STATE_WORK
      phase_length_s := POMODORO_WORK_SECONDS } }
    let w := reset_phase_timing_locked now w
    let w := start_ui_timer_locked w
    schedule_minute_tick_locked now w

/-- Embeds `stop_locked`. -/
def stop_locked (w : world) : world :=
  let w := { w with ctx := { w.ctx with
    state := POMODORO_STATE_IDLE
    phase := POMODORO_PHASE_NONE
    session := 0
    elapsed_s := 0
    phase_started_ms := 0
    phase_length_s := POMODORO_WORK_SECONDS } }
  cancel_timers_locked w

/-- Embeds `minute_tick_cb`, the completion-check callback. -/
def minute_tick_cb (cfg : config) (now : Int) (w : world) : world :=
  if !is_running w.ctx then w
  else
    let w := { w with ctx := { w.ctx with elapsed_s := current_elapsed_locked now w.ctx } }
    if remaining_locked now w.ctx = 0 then
      let w :=
        if w.ctx.phase = POMODORO_PHASE_WORK then complete_work_locked now w
        else complete_break_locked now w
      refresh_display_locked cfg now true w
    else
      let w := schedule_minute_tick_locked now w
      refresh_display_locked cfg now false w

/-- Embeds `ui_timer_cb`, the 1-second refresh callback. -/
def ui_timer_cb (cfg : config) (now : Int) (w : world) : world :=
  let w :=
    if is_running w.ctx then
      let w := { w with ctx := { w.ctx with elapsed_s := current_elapsed_locked now w.ctx } }
      if remaining_locked now w.ctx = 0 then
        if w.ctx.phase = POMODORO_PHASE_WORK then complete_work_locked now w
        else complete_break_locked now w
      else w
    else w
  refresh_display_locked cfg now false w

/-- Embeds `pomodoro_start`: the return value and the resulting system. -/
def pomodoro_start (cfg : config) (now : Int) (w : world) : Int × world :=
  if is_running w.ctx then (0, w)
  else
    let w := start_phase_locked now POMODORO_PHASE_WORK true w
    let w := refresh_display_locked cfg now true w
    (0, w)

/-- Embeds `pomodoro_pause`. -/
def pomodoro_pause (cfg : config) (now : Int) (w : world) : Int × world :=
  if is_running w.ctx then
    let w := { w with ctx := { w.ctx with elapsed_s := current_elapsed_locked now w.ctx } }
    let w := { w with ctx := { w.ctx with state := POMODORO_STATE_PAUSED } }
    let w := stop_ui_timer_locked w
    let w := { w with minute_tick_work := none }
    let w := refresh_display_locked cfg now true w
    (0, w)
  else if w.ctx.state = POMODORO_STATE_PAUSED then
    let w :=
      if is_break_phase w.ctx then complete_break_locked now w
      else
        let w := { w with ctx := { w.ctx with
          state := POMODORO_STATE_WORK
          phase := POMODORO_PHASE_WORK
          phase_started_ms := now } }
        let w := start_ui_timer_locked w
        schedule_minute_tick_locked now w
    let w := refresh_display_locked cfg now true w
    (0, w)
  else (0, w)

/-- Embeds `pomodoro_resume`. -/
def pomodoro_resume (cfg : config) (now : Int) (w : world) : Int × world :=
  if w.ctx.state = POMODORO_STATE_PAUSED then
    let w :=
      if is_break_phase w.ctx then complete_break_locked now w
      else
        let w := { w with ctx := { w.ctx with
          state := POMODORO_STATE_WORK
          phase := POMODORO_PHASE_WORK
          phase_started_ms := now } }
        let w := start_ui_timer_locked w
        schedule_minute_tick_locked now w
    let w := refresh_display_locked cfg now true w
    (0, w)
  else if w.ctx.state = POMODORO_STATE_BREAK then
    let w := complete_break_locked now w
    let w := refresh_display_locked cfg now true w
    (0, w)
  else (0, w)

/-- Embeds `pomodoro_stop`. -/
def pomodoro_stop (cfg : config) (now : Int) (w : world) : Int × world :=
  let w := stop_locked w
  let w := refresh_display_locked cfg now true w
  (0, w)

/-- Embeds `pomodoro_smart`. -/
def pomodoro_smart (cfg : config) (now : Int) (w : world) : Int × world :=
  let w :=
    if w.ctx.state = POMODORO_STATE_IDLE then
      start_phase_locked now POMODORO_PHASE_WORK true w
    else if w.ctx.state = POMODORO_STATE_PAUSED then
      if is_break_phase w.ctx then complete_break_locked now w
      else
        let w := { w with ctx := { w.ctx with
          state := POMODORO_STATE_WORK
          phase := POMODORO_PHASE_WORK
          phase_started_ms := now } }
        let w := start_ui_timer_locked w
        schedule_minute_tick_locked now w
    else if w.ctx.state = POMODORO_STATE_BREAK then
      complete_break_locked now w
    else
      let w := { w with ctx := { w.ctx with elapsed_s := current_elapsed_locked now w.ctx } }
      let w := { w with ctx := { w.ctx with state := POMODORO_STATE_PAUSED } }
      let w := stop_ui_timer_locked w
      { w with minute_tick_work := none }
  let w := refresh_display_locked cfg now true w
  (0, w)

/-- Embeds `pomodoro_break_extend`. -/
def pomodoro_break_extend (cfg : config) (now : Int) (w : world) : Int × world :=
  if w.ctx.phase = POMODORO_PHASE_BREAK ∧ w.ctx.phase_length_s < cfg.ceiling then
    let w := { w with ctx := { w.ctx with
      phase_length_s := min ((w.ctx.phase_length_s + 60) % UINT32_MOD) cfg.ceiling } }
    let w := if is_running w.ctx then schedule_minute_tick_locked now w else w
    let w := refresh_display_locked cfg now true w
    (0, w)
  else (0, w)

/-- Embeds `pomodoro_break_skip`. -/
def pomodoro_break_skip (cfg : config) (now : Int) (w : world) : Int × world :=
  if w.ctx.phase = POMODORO_PHASE_BREAK then
    let w := complete_break_locked now w
    let w := refresh_display_locked cfg now true w
    (0, w)
  else (0, w)

/-- Embeds `pomodoro_current_status`. -/
def pomodoro_current_status (cfg : config) (now : Int) (w : world) : pomodoro_status :=
  snapshot_locked cfg now w.ctx

/-- Embeds `pomodoro_any_key_handler`.  `ev` is `none` when the event is not a
position-state change (`as_zmk_position_state_changed` gives NULL), otherwise
`some pressed` with the `state` field of the event.  The handler always
answers `ZMK_EV_EVENT_BUBBLE`; only its effect on the system is kept.  The
source reads `in_break` and `in_pause` under the mutex and releases it before
calling the operation; the two are taken here as one step. -/
def pomodoro_any_key_handler (cfg : config) (now : Int) (ev : Option Bool) (w : world) : world :=
  if !cfg.RESUME_ON_ANY_KEY then w
  else
    match ev with
    | none => w
    | some false => w
    | some true =>
      let in_break := w.ctx.state == POMODORO_STATE_BREAK ||
        (w.ctx.state == POMODORO_STATE_PAUSED && is_break_phase w.ctx)
      let in_pause := w.ctx.state == POMODORO_STATE_PAUSED
      if in_break then (pomodoro_break_skip cfg now w).2
      else if in_pause then (pomodoro_resume cfg now w).2
      else w

/-- What can enter the engine: the seven operations of `enum pomodoro_action`,
the two tick callbacks and a key event. -/
inductive event where
  | POMODORO_ACTION_START
  | POMODORO_ACTION_PAUSE
  | POMODORO_ACTION_STOP
  | POMODORO_ACTION_SMART
  | POMODORO_ACTION_RESUME
  | POMODORO_ACTION_BREAK_EXTEND
  | POMODORO_ACTION_BREAK_SKIP
  | UI_TICK
  | MINUTE_TICK
  | KEY (ev : Option Bool)
deriving DecidableEq, Repr

open event

/-- One entry into the engine at clock reading `now`; the operations are
dispatched as in `pomodoro_behavior_pressed`. -/
def step (cfg : config) (w : world) (now : Int) (e : event) : world :=
  match e with
  | POMODORO_ACTION_START => (pomodoro_start cfg now w).2
  | POMODORO_ACTION_PAUSE => (pomodoro_pause cfg now w).2
  | POMODORO_ACTION_STOP => (pomodoro_stop cfg now w).2
  | POMODORO_ACTION_SMART => (pomodoro_smart cfg now w).2
  | POMODORO_ACTION_RESUME => (pomodoro_resume cfg now w).2
  | POMODORO_ACTION_BREAK_EXTEND => (pomodoro_break_extend cfg now w).2
  | POMODORO_ACTION_BREAK_SKIP => (pomodoro_break_skip cfg now w).2
  | UI_TICK => ui_timer_cb cfg now w
  | MINUTE_TICK => minute_tick_cb cfg now w
  | KEY ev => pomodoro_any_key_handler cfg now ev w

/-- Run a timed trace from a given system, oldest entry first. -/
def run_from (cfg : config) (w : world) : List (Int × event) → world
  | [] => w
  | (now, e) :: rest => run_from cfg (step cfg w now e) rest

/-- Run a timed trace from the initial system. -/
def run (cfg : config) (tr : List (Int × event)) : world :=
  run_from cfg world_init tr

/-- The clock readings of a trace are uptime values: non-negative and
non-decreasing along the trace. -/
def clock_ok : List (Int × event) → Bool
  | [] => true
  | [(t, _)] => decide (0 ≤ t)
  | (t, _) :: (u, e) :: rest => decide (0 ≤ t) && decide (t ≤ u) && clock_ok ((u, e) :: rest)

/-- A system is reachable when some trace with a well-formed clock leads to it
from the initial system. -/
def reachable (cfg : config) (w : world) : Prop :=
  ∃ tr : List (Int × event), clock_ok tr = true ∧ run cfg tr = w

/-- Proof vocabulary: the local `delta_s` of `current_elapsed_locked`. -/
def delta_seconds (now : Int) (c : pomodoro_context) : Nat :=
  let delta_ms : Int := now - c.phase_started_ms
  if delta_ms > 0 then (delta_ms / 1000).toNat % UINT32_MOD else 0

/-- Proof vocabulary: the completion branch that the two tick callbacks share,
`complete_work_locked` for a Work phase and `complete_break_locked`
otherwise. -/
def complete_phase_locked (now : Int) (w : world) : world :=
  if w.ctx.phase = POMODORO_PHASE_WORK then complete_work_locked now w
  else complete_break_locked now w

/-- Proof vocabulary: the block that `pomodoro_pause`, `pomodoro_resume` and
`pomodoro_smart` each spell out for a paused context. -/
def resume_paused_locked (now : Int) (w : world) : world :=
  if is_break_phase w.ctx then complete_break_locked now w
  else
    let w := { w with ctx := { w.ctx with
      state := POMODORO_STATE_WORK
      phase := POMODORO_PHASE_WORK
      phase_started_ms := now } }
    let w := start_ui_timer_locked w
    schedule_minute_tick_locked now w

/-- Proof vocabulary: the block that `pomodoro_pause` and `pomodoro_smart` each
spell out for a running context, up to the display refresh. -/
def pause_running_locked (now : Int) (w : world) : world :=
  let w := { w with ctx := { w.ctx with elapsed_s := current_elapsed_locked now w.ctx } }
  let w := { w with ctx := { w.ctx with state := POMODORO_STATE_PAUSED } }
  let w := stop_ui_timer_locked w
  { w with minute_tick_work := none }


/-- The couplings between `state`, `phase`, `session` and the work length that
every entry point preserves; they do not depend on the configuration. -/
def ctx_inv (c : pomodoro_context) : Prop :=
  (c.state = POMODORO_STATE_IDLE ↔ c.phase = POMODORO_PHASE_NONE) ∧
  (c.state = POMODORO_STATE_WORK → c.phase = POMODORO_PHASE_WORK) ∧
  (c.state = POMODORO_STATE_BREAK → c.phase = POMODORO_PHASE_BREAK) ∧
  (c.state = POMODORO_STATE_IDLE ↔ c.session = 0) ∧
  c.session ≤ POMODORO_MAX_SESSIONS ∧
  (c.phase = POMODORO_PHASE_WORK → c.phase_length_s = POMODORO_WORK_SECONDS) ∧
  (c.phase = POMODORO_PHASE_NONE → c.phase_length_s = POMODORO_WORK_SECONDS)

/-- The numeric bounds that every entry point preserves under a well-formed
configuration: the break length between its default and the ceiling, the
stored elapsed time within the phase length, the phase length a `uint32_t`. -/
def ctx_bound (cfg : config) (c : pomodoro_context) : Prop :=
  (c.phase = POMODORO_PHASE_BREAK → POMODORO_BREAK_SECONDS ≤ c.phase_length_s ∧
    (POMODORO_BREAK_SECONDS ≤ cfg.ceiling → c.phase_length_s ≤ cfg.ceiling)) ∧
  c.elapsed_s ≤ c.phase_length_s ∧
  c.phase_length_s < UINT32_MOD

/-- The derived elapsed time in the words of the specification:
`stored_elapsed + max(0, now - phase_started_at)` in whole seconds, clamped to
the phase length, over unbounded integers. -/
def current_elapsed_spec (now : Int) (c : pomodoro_context) : Nat :=
  min (c.elapsed_s + (max 0 ((now - c.phase_started_ms) / 1000)).toNat) c.phase_length_s

/-- A configuration used for concrete runs: a 15 minute ceiling and the
any-key routing enabled. -/
def cfg_example : config := { BREAK_EXTEND_LIMIT_MINUTES := 15, RESUME_ON_ANY_KEY := true }

/-- A trace of `n` refresh ticks, one per second, after a start at uptime 0. -/
def ticking_trace (n : Nat) : List (Int × event) :=
  (0, POMODORO_ACTION_START) :: (List.range n).map (fun i => (((i : Int) + 1) * 1000, UI_TICK))


/-- The context at the start of a Work phase of session `s` stamped at `t`. -/
def work_ctx (s : Nat) (t : Int) : pomodoro_context :=
  { state := POMODORO_STATE_WORK, phase := POMODORO_PHASE_WORK, session := s,
    phase_length_s := POMODORO_WORK_SECONDS, elapsed_s := 0, phase_started_ms := t,
    ui_timer_running := true }

/-- The context at the start of a Break phase of session `s` stamped at `t`. -/
def break_ctx (s : Nat) (t : Int) : pomodoro_context :=
  { state := POMODORO_STATE_BREAK, phase := POMODORO_PHASE_BREAK, session := s,
    phase_length_s := POMODORO_BREAK_SECONDS, elapsed_s := 0, phase_started_ms := t,
    ui_timer_running := true }

/-- The triple (state, session, remaining seconds) of a status snapshot. -/
def status_triple (s : pomodoro_status) : pomodoro_state × Nat × Nat :=
  (s.state, s.session, s.remaining_seconds)

/-! ## Lemmas on the helpers -/

theorem current_elapsed_locked_eq (now : Int) (c : pomodoro_context) :
    current_elapsed_locked now c =
      if !is_running c then c.elapsed_s
      else min ((c.elapsed_s + delta_seconds now c) % UINT32_MOD) c.phase_length_s := rfl

theorem ui_timer_cb_eq (cfg : config) (now : Int) (w : world) :
    ui_timer_cb cfg now w =
      refresh_display_locked cfg now false
        (if is_running w.ctx then
          (if remaining_locked now
              { w.ctx with elapsed_s := current_elapsed_locked now w.ctx } = 0 then
            complete_phase_locked now
              { w with ctx := { w.ctx with elapsed_s := current_elapsed_locked now w.ctx } }
          else { w with ctx := { w.ctx with elapsed_s := current_elapsed_locked now w.ctx } })
        else w) := rfl

theorem minute_tick_cb_eq (cfg : config) (now : Int) (w : world) :
    minute_tick_cb cfg now w =
      if !is_running w.ctx then w
      else if remaining_locked now
          { w.ctx with elapsed_s := current_elapsed_locked now w.ctx } = 0 then
        refresh_display_locked cfg now true (complete_phase_locked now
          { w with ctx := { w.ctx with elapsed_s := current_elapsed_locked now w.ctx } })
      else
        refresh_display_locked cfg now false (schedule_minute_tick_locked now
          { w with ctx := { w.ctx with elapsed_s := current_elapsed_locked now w.ctx } }) := rfl

theorem pomodoro_pause_eq (cfg : config) (now : Int) (w : world) :
    pomodoro_pause cfg now w =
      if is_running w.ctx then
        (0, refresh_display_locked cfg now true (pause_running_locked now w))
      else if w.ctx.state = POMODORO_STATE_PAUSED then
        (0, refresh_display_locked cfg now true (resume_paused_locked now w))
      else (0, w) := rfl

theorem pomodoro_resume_eq (cfg : config) (now : Int) (w : world) :
    pomodoro_resume cfg now w =
      if w.ctx.state = POMODORO_STATE_PAUSED then
        (0, refresh_display_locked cfg now true (resume_paused_locked now w))
      else if w.ctx.state = POMODORO_STATE_BREAK then
        (0, refresh_display_locked cfg now true (complete_break_locked now w))
      else (0, w) := rfl

theorem pomodoro_smart_eq (cfg : config) (now : Int) (w : world) :
    pomodoro_smart cfg now w =
      (0, refresh_display_locked cfg now true
        (if w.ctx.state = POMODORO_STATE_IDLE then
          start_phase_locked now POMODORO_PHASE_WORK true w
        else if w.ctx.state = POMODORO_STATE_PAUSED then resume_paused_locked now w
        else if w.ctx.state = POMODORO_STATE_BREAK then complete_break_locked now w
        else pause_running_locked now w)) := rfl

theorem start_ui_timer_locked_eq (w : world) :
    start_ui_timer_locked w = { w with ctx := { w.ctx with ui_timer_running := true } } := by
  obtain ⟨⟨st, ph, s, len, el, ts, ui⟩, mt, d⟩ := w
  cases ui <;> rfl

theorem stop_ui_timer_locked_eq (w : world) :
    stop_ui_timer_locked w = { w with ctx := { w.ctx with ui_timer_running := false } } := by
  obtain ⟨⟨st, ph, s, len, el, ts, ui⟩, mt, d⟩ := w
  cases ui <;> rfl

theorem schedule_minute_tick_locked_ctx (now : Int) (w : world) :
    (schedule_minute_tick_locked now w).ctx = w.ctx := by
  unfold schedule_minute_tick_locked
  split <;> rfl

theorem refresh_display_locked_ctx (cfg : config) (now : Int) (force : Bool) (w : world) :
    (refresh_display_locked cfg now force w).ctx = w.ctx := rfl

theorem start_phase_locked_work_ctx (now : Int) (w : world) :
    (start_phase_locked now POMODORO_PHASE_WORK true w).ctx =
      { state := POMODORO_STATE_WORK, phase := POMODORO_PHASE_WORK, session := 1,
        phase_length_s := POMODORO_WORK_SECONDS, elapsed_s := 0, phase_started_ms := now,
        ui_timer_running := true } := by
  simp [start_phase_locked, schedule_minute_tick_locked_ctx, start_ui_timer_locked_eq,
    reset_phase_timing_locked]

theorem complete_work_locked_ctx (now : Int) (w : world) :
    (complete_work_locked now w).ctx =
      { state := POMODORO_STATE_BREAK, phase := POMODORO_PHASE_BREAK, session := w.ctx.session,
        phase_length_s := POMODORO_BREAK_SECONDS, elapsed_s := 0, phase_started_ms := now,
        ui_timer_running := true } := by
  simp [complete_work_locked, schedule_minute_tick_locked_ctx, start_ui_timer_locked_eq]

theorem complete_break_locked_ctx (now : Int) (w : world) :
    (complete_break_locked now w).ctx =
      if (w.ctx.session + 1) % UINT8_MOD > POMODORO_MAX_SESSIONS then ctx_init
      else
        { state := POMODORO_STATE_WORK, phase := POMODORO_PHASE_WORK,
          session := (w.ctx.session + 1) % UINT8_MOD,
          phase_length_s := POMODORO_WORK_SECONDS, elapsed_s := 0, phase_started_ms := now,
          ui_timer_running := true } := by
  unfold complete_break_locked
  simp only []
  split
  · simp [cancel_timers_locked, stop_ui_timer_locked_eq, ctx_init]
  · simp [schedule_minute_tick_locked_ctx, start_ui_timer_locked_eq, reset_phase_timing_locked]

theorem stop_locked_ctx (w : world) : (stop_locked w).ctx = ctx_init := by
  simp [stop_locked, cancel_timers_locked, stop_ui_timer_locked_eq, ctx_init]

theorem resume_paused_locked_ctx (now : Int) (w : world) :
    (resume_paused_locked now w).ctx =
      if w.ctx.phase = POMODORO_PHASE_BREAK then (complete_break_locked now w).ctx
      else { w.ctx with state := POMODORO_STATE_WORK, phase := POMODORO_PHASE_WORK,
                        phase_started_ms := now, ui_timer_running := true } := by
  unfold resume_paused_locked is_break_phase
  by_cases h : w.ctx.phase = POMODORO_PHASE_BREAK
  · simp [h]
  · simp [h, schedule_minute_tick_locked_ctx, start_ui_timer_locked_eq]

theorem pause_running_locked_ctx (now : Int) (w : world) :
    (pause_running_locked now w).ctx =
      { w.ctx with elapsed_s := current_elapsed_locked now w.ctx, state := POMODORO_STATE_PAUSED,
                   ui_timer_running := false } := by
  simp [pause_running_locked, stop_ui_timer_locked_eq]

theorem current_elapsed_locked_le (now : Int) (c : pomodoro_context)
    (h : c.elapsed_s ≤ c.phase_length_s) : current_elapsed_locked now c ≤ c.phase_length_s := by
  rw [current_elapsed_locked_eq]
  split
  · exact h
  · exact Nat.min_le_right _ _

theorem is_running_iff (c : pomodoro_context) :
    is_running c = true ↔
      c.state = POMODORO_STATE_WORK ∨ c.state = POMODORO_STATE_BREAK := by
  simp [is_running]

theorem ctx_inv_init : ctx_inv ctx_init := by
  simp [ctx_inv, ctx_init, POMODORO_MAX_SESSIONS]

theorem ctx_bound_init (cfg : config) : ctx_bound cfg ctx_init := by
  simp [ctx_bound, ctx_init, POMODORO_WORK_SECONDS, POMODORO_DEFAULT_WORK_SECONDS, UINT32_MOD]

theorem ctx_inv_start_phase (now : Int) (w : world) :
    ctx_inv (start_phase_locked now POMODORO_PHASE_WORK true w).ctx := by
  rw [start_phase_locked_work_ctx]
  simp [ctx_inv, POMODORO_MAX_SESSIONS]

theorem ctx_bound_start_phase (cfg : config) (now : Int) (w : world) :
    ctx_bound cfg (start_phase_locked now POMODORO_PHASE_WORK true w).ctx := by
  rw [start_phase_locked_work_ctx]
  simp [ctx_bound, POMODORO_WORK_SECONDS, POMODORO_DEFAULT_WORK_SECONDS, UINT32_MOD]

theorem ctx_inv_complete_work (now : Int) (w : world)
    (h : ctx_inv w.ctx) (hs : w.ctx.state ≠ POMODORO_STATE_IDLE) :
    ctx_inv (complete_work_locked now w).ctx := by
  rw [complete_work_locked_ctx]
  obtain ⟨h1, h2, h3, h4, h5, h6, h7⟩ := h
  have hs0 : w.ctx.session ≠ 0 := fun h0 => hs (h4.mpr h0)
  simp [ctx_inv, hs0, h5]

theorem ctx_bound_complete_work (cfg : config) (now : Int) (w : world) :
    ctx_bound cfg (complete_work_locked now w).ctx := by
  rw [complete_work_locked_ctx]
  simp [ctx_bound, POMODORO_BREAK_SECONDS, POMODORO_DEFAULT_BREAK_SECONDS, UINT32_MOD]

theorem ctx_inv_complete_break (now : Int) (w : world) (h : ctx_inv w.ctx) :
    ctx_inv (complete_break_locked now w).ctx := by
  rw [complete_break_locked_ctx]
  split
  · exact ctx_inv_init
  · rename_i hlt
    obtain ⟨h1, h2, h3, h4, h5, h6, h7⟩ := h
    simp only [POMODORO_MAX_SESSIONS, UINT8_MOD] at hlt h5
    have e1 : (w.ctx.session + 1) % UINT8_MOD = w.ctx.session + 1 := by
      simp only [UINT8_MOD]; omega
    rw [e1]
    have e2 : w.ctx.session + 1 ≤ 4 := by omega
    simp [ctx_inv, POMODORO_MAX_SESSIONS, e2]

theorem ctx_bound_complete_break (cfg : config) (now : Int) (w : world) :
    ctx_bound cfg (complete_break_locked now w).ctx := by
  rw [complete_break_locked_ctx]
  split
  · exact ctx_bound_init cfg
  · simp [ctx_bound, POMODORO_WORK_SECONDS, POMODORO_DEFAULT_WORK_SECONDS, UINT32_MOD]

theorem ctx_inv_store_elapsed (c : pomodoro_context) (n : Nat) (h : ctx_inv c) :
    ctx_inv { c with elapsed_s := n } := h

theorem ctx_bound_store_elapsed (cfg : config) (now : Int) (c : pomodoro_context)
    (h : ctx_bound cfg c) :
    ctx_bound cfg { c with elapsed_s := current_elapsed_locked now c } :=
  ⟨h.1, current_elapsed_locked_le now c h.2.1, h.2.2⟩

theorem ctx_inv_complete_phase (now : Int) (w : world)
    (h : ctx_inv w.ctx) (hs : w.ctx.state ≠ POMODORO_STATE_IDLE) :
    ctx_inv (complete_phase_locked now w).ctx := by
  unfold complete_phase_locked
  split
  · exact ctx_inv_complete_work now w h hs
  · exact ctx_inv_complete_break now w h

theorem ctx_bound_complete_phase (cfg : config) (now : Int) (w : world) :
    ctx_bound cfg (complete_phase_locked now w).ctx := by
  unfold complete_phase_locked
  split
  · exact ctx_bound_complete_work cfg now w
  · exact ctx_bound_complete_break cfg now w

theorem ctx_inv_resume_paused (now : Int) (w : world)
    (h : ctx_inv w.ctx) (hs : w.ctx.state = POMODORO_STATE_PAUSED) :
    ctx_inv (resume_paused_locked now w).ctx := by
  rw [resume_paused_locked_ctx]
  split
  · exact ctx_inv_complete_break now w h
  · rename_i hb
    obtain ⟨h1, h2, h3, h4, h5, h6, h7⟩ := h
    have hne : w.ctx.phase ≠ POMODORO_PHASE_NONE := fun h0 => by
      have := h1.mpr h0; rw [hs] at this; cases this
    have hw : w.ctx.phase = POMODORO_PHASE_WORK := by
      cases hp : w.ctx.phase <;> simp_all
    have hs0 : w.ctx.session ≠ 0 := fun h0 => by
      have := h4.mpr h0; rw [hs] at this; cases this
    have h6w := h6 hw
    exact ⟨by simp, by simp, by simp, by simp [hs0], h5, fun _ => h6w, by simp⟩

theorem ctx_bound_resume_paused (cfg : config) (now : Int) (w : world)
    (h : ctx_bound cfg w.ctx) : ctx_bound cfg (resume_paused_locked now w).ctx := by
  rw [resume_paused_locked_ctx]
  split
  · exact ctx_bound_complete_break cfg now w
  · exact ⟨by simp, h.2.1, h.2.2⟩

theorem ctx_inv_pause_running (now : Int) (w : world)
    (h : ctx_inv w.ctx) (hr : is_running w.ctx = true) :
    ctx_inv (pause_running_locked now w).ctx := by
  rw [pause_running_locked_ctx]
  obtain ⟨h1, h2, h3, h4, h5, h6, h7⟩ := h
  have hst := (is_running_iff w.ctx).mp hr
  have hni : w.ctx.state ≠ POMODORO_STATE_IDLE := by
    rcases hst with e | e <;> rw [e] <;> simp
  have hs0 : w.ctx.session ≠ 0 := fun h0 => hni (h4.mpr h0)
  have hpn : w.ctx.phase ≠ POMODORO_PHASE_NONE := fun h0 => hni (h1.mpr h0)
  exact ⟨by simp [hpn], by simp, by simp, by simp [hs0], h5, h6, h7⟩

theorem ctx_bound_pause_running (cfg : config) (now : Int) (w : world)
    (h : ctx_bound cfg w.ctx) : ctx_bound cfg (pause_running_locked now w).ctx := by
  rw [pause_running_locked_ctx]
  exact ⟨h.1, current_elapsed_locked_le now w.ctx h.2.1, h.2.2⟩

theorem pomodoro_break_extend_ctx (cfg : config) (now : Int) (w : world) :
    (pomodoro_break_extend cfg now w).2.ctx =
      if w.ctx.phase = POMODORO_PHASE_BREAK ∧ w.ctx.phase_length_s < cfg.ceiling then
        { w.ctx with
          phase_length_s := min ((w.ctx.phase_length_s + 60) % UINT32_MOD) cfg.ceiling }
      else w.ctx := by
  unfold pomodoro_break_extend
  split
  · simp only [refresh_display_locked_ctx]
    split
    · exact schedule_minute_tick_locked_ctx now _
    · rfl
  · rfl

theorem ctx_inv_break_extend (cfg : config) (now : Int) (w : world) (h : ctx_inv w.ctx) :
    ctx_inv (pomodoro_break_extend cfg now w).2.ctx := by
  rw [pomodoro_break_extend_ctx]
  split
  · rename_i hc
    obtain ⟨h1, h2, h3, h4, h5, h6, h7⟩ := h
    refine ⟨h1, h2, h3, h4, h5, ?_, ?_⟩
    · intro hw; rw [hc.1] at hw; cases hw
    · intro hw; rw [hc.1] at hw; cases hw
  · exact h

theorem ctx_bound_break_extend (cfg : config) (hv : cfg.valid) (now : Int) (w : world)
    (h : ctx_bound cfg w.ctx) : ctx_bound cfg (pomodoro_break_extend cfg now w).2.ctx := by
  rw [pomodoro_break_extend_ctx]
  split
  · rename_i hc
    obtain ⟨hb, hlt⟩ := hc
    unfold ctx_bound at h ⊢
    obtain ⟨h8, h9, h10⟩ := h
    obtain ⟨h8a, h8b⟩ := h8 hb
    simp only [config.valid] at hv
    simp only [UINT32_MOD, POMODORO_BREAK_SECONDS, POMODORO_DEFAULT_BREAK_SECONDS] at *
    have e1 : (w.ctx.phase_length_s + 60) % 4294967296 = w.ctx.phase_length_s + 60 := by omega
    refine ⟨?_, ?_, ?_⟩
    · intro _
      simp only [e1]
      refine ⟨?_, fun _ => Nat.min_le_right _ _⟩
      omega
    · simp only [e1]; omega
    · simp only [e1]; omega
  · exact h

theorem step_ctx_inv (cfg : config) (w : world) (now : Int) (e : event)
    (h : ctx_inv w.ctx) : ctx_inv (step cfg w now e).ctx := by
  have hrun : ∀ v : world, is_running v.ctx = true → v.ctx.state ≠ POMODORO_STATE_IDLE := by
    intro v hr hi; simp [is_running, hi] at hr
  cases e with
  | POMODORO_ACTION_START =>
    simp only [step, pomodoro_start]
    split
    · exact h
    · exact ctx_inv_start_phase now w
  | POMODORO_ACTION_PAUSE =>
    simp only [step, pomodoro_pause_eq]
    split
    · rename_i hr; exact ctx_inv_pause_running now w h hr
    · split
      · rename_i hp; exact ctx_inv_resume_paused now w h hp
      · exact h
  | POMODORO_ACTION_STOP =>
    simp only [step, pomodoro_stop, refresh_display_locked_ctx, stop_locked_ctx]
    exact ctx_inv_init
  | POMODORO_ACTION_SMART =>
    simp only [step, pomodoro_smart_eq, refresh_display_locked_ctx]
    split
    · exact ctx_inv_start_phase now w
    · split
      · rename_i hp; exact ctx_inv_resume_paused now w h hp
      · split
        · exact ctx_inv_complete_break now w h
        · rename_i hi hp hb
          apply ctx_inv_pause_running now w h
          cases hst : w.ctx.state <;> simp_all [is_running]
  | POMODORO_ACTION_RESUME =>
    simp only [step, pomodoro_resume_eq]
    split
    · rename_i hp; exact ctx_inv_resume_paused now w h hp
    · split
      · exact ctx_inv_complete_break now w h
      · exact h
  | POMODORO_ACTION_BREAK_EXTEND => exact ctx_inv_break_extend cfg now w h
  | POMODORO_ACTION_BREAK_SKIP =>
    simp only [step, pomodoro_break_skip]
    split
    · exact ctx_inv_complete_break now w h
    · exact h
  | UI_TICK =>
    simp only [step, ui_timer_cb_eq, refresh_display_locked_ctx]
    split
    · rename_i hr
      split
      · exact ctx_inv_complete_phase now _ (ctx_inv_store_elapsed w.ctx _ h) (hrun w hr)
      · exact ctx_inv_store_elapsed w.ctx _ h
    · exact h
  | MINUTE_TICK =>
    simp only [step, minute_tick_cb_eq]
    split
    · exact h
    · rename_i hr
      have hr2 : is_running w.ctx = true := by simpa using hr
      split
      · exact ctx_inv_complete_phase now _ (ctx_inv_store_elapsed w.ctx _ h) (hrun w hr2)
      · simp only [refresh_display_locked_ctx, schedule_minute_tick_locked_ctx]
        exact ctx_inv_store_elapsed w.ctx _ h
  | KEY ev =>
    simp only [step, pomodoro_any_key_handler]
    split
    · exact h
    · split
      · exact h
      · exact h
      · split
        · simp only [pomodoro_break_skip]
          split
          · exact ctx_inv_complete_break now w h
          · exact h
        · split
          · simp only [pomodoro_resume_eq]
            split
            · rename_i hp2; exact ctx_inv_resume_paused now w h hp2
            · split
              · exact ctx_inv_complete_break now w h
              · exact h
          · exact h

theorem step_ctx_bound (cfg : config) (hv : cfg.valid) (w : world) (now : Int) (e : event)
    (h : ctx_bound cfg w.ctx) : ctx_bound cfg (step cfg w now e).ctx := by
  cases e with
  | POMODORO_ACTION_START =>
    simp only [step, pomodoro_start]
    split
    · exact h
    · exact ctx_bound_start_phase cfg now w
  | POMODORO_ACTION_PAUSE =>
    simp only [step, pomodoro_pause_eq]
    split
    · exact ctx_bound_pause_running cfg now w h
    · split
      · exact ctx_bound_resume_paused cfg now w h
      · exact h
  | POMODORO_ACTION_STOP =>
    simp only [step, pomodoro_stop, refresh_display_locked_ctx, stop_locked_ctx]
    exact ctx_bound_init cfg
  | POMODORO_ACTION_SMART =>
    simp only [step, pomodoro_smart_eq, refresh_display_locked_ctx]
    split
    · exact ctx_bound_start_phase cfg now w
    · split
      · exact ctx_bound_resume_paused cfg now w h
      · split
        · exact ctx_bound_complete_break cfg now w
        · exact ctx_bound_pause_running cfg now w h
  | POMODORO_ACTION_RESUME =>
    simp only [step, pomodoro_resume_eq]
    split
    · exact ctx_bound_resume_paused cfg now w h
    · split
      · exact ctx_bound_complete_break cfg now w
      · exact h
  | POMODORO_ACTION_BREAK_EXTEND => exact ctx_bound_break_extend cfg hv now w h
  | POMODORO_ACTION_BREAK_SKIP =>
    simp only [step, pomodoro_break_skip]
    split
    · exact ctx_bound_complete_break cfg now w
    · exact h
  | UI_TICK =>
    simp only [step, ui_timer_cb_eq, refresh_display_locked_ctx]
    split
    · split
      · exact ctx_bound_complete_phase cfg now _
      · exact ctx_bound_store_elapsed cfg now w.ctx h
    · exact h
  | MINUTE_TICK =>
    simp only [step, minute_tick_cb_eq]
    split
    · exact h
    · split
      · exact ctx_bound_complete_phase cfg now _
      · simp only [refresh_display_locked_ctx, schedule_minute_tick_locked_ctx]
        exact ctx_bound_store_elapsed cfg now w.ctx h
  | KEY ev =>
    simp only [step, pomodoro_any_key_handler]
    split
    · exact h
    · split
      · exact h
      · exact h
      · split
        · simp only [pomodoro_break_skip]
          split
          · exact ctx_bound_complete_break cfg now w
          · exact h
        · split
          · simp only [pomodoro_resume_eq]
            split
            · exact ctx_bound_resume_paused cfg now w h
            · split
              · exact ctx_bound_complete_break cfg now w
              · exact h
          · exact h

theorem run_from_ctx_inv (cfg : config) (tr : List (Int × event)) :
    ∀ w : world, ctx_inv w.ctx → ctx_inv (run_from cfg w tr).ctx := by
  induction tr with
  | nil => intro w h; exact h
  | cons p rest ih =>
    intro w h
    obtain ⟨now, e⟩ := p
    exact ih _ (step_ctx_inv cfg w now e h)

theorem run_from_ctx_bound (cfg : config) (hv : cfg.valid) (tr : List (Int × event)) :
    ∀ w : world, ctx_bound cfg w.ctx → ctx_bound cfg (run_from cfg w tr).ctx := by
  induction tr with
  | nil => intro w h; exact h
  | cons p rest ih =>
    intro w h
    obtain ⟨now, e⟩ := p
    exact ih _ (step_ctx_bound cfg hv w now e h)

theorem reachable_ctx_inv (cfg : config) (w : world) (h : reachable cfg w) : ctx_inv w.ctx := by
  obtain ⟨tr, _, rfl⟩ := h
  exact run_from_ctx_inv cfg tr world_init ctx_inv_init

theorem reachable_ctx_bound (cfg : config) (hv : cfg.valid) (w : world)
    (h : reachable cfg w) : ctx_bound cfg w.ctx := by
  obtain ⟨tr, _, rfl⟩ := h
  exact run_from_ctx_bound cfg hv tr world_init (ctx_bound_init cfg)

theorem remaining_locked_add (now : Int) (c : pomodoro_context)
    (h : c.elapsed_s ≤ c.phase_length_s) :
    remaining_locked now c + current_elapsed_locked now c = c.phase_length_s := by
  have hle := current_elapsed_locked_le now c h
  unfold remaining_locked
  simp only []
  split <;> omega

theorem remaining_locked_le (now : Int) (c : pomodoro_context) :
    remaining_locked now c ≤ c.phase_length_s := by
  unfold remaining_locked
  simp only []
  split <;> omega

theorem delta_seconds_le (now : Int) (c : pomodoro_context) (n : Nat)
    (h : ((now - c.phase_started_ms) / 1000).toNat + n < 4294967296) :
    delta_seconds now c + n < 4294967296 := by
  unfold delta_seconds UINT32_MOD
  simp only []
  split <;> omega

theorem minute_tick_cb_ctx (cfg : config) (now : Int) (w : world) :
    (minute_tick_cb cfg now w).ctx = (ui_timer_cb cfg now w).ctx := by
  rw [minute_tick_cb_eq, ui_timer_cb_eq]
  simp only [refresh_display_locked_ctx]
  cases hr : is_running w.ctx
  · simp
  · simp only [Bool.not_true, Bool.false_eq_true, if_false, if_true]
    split
    · rfl
    · exact schedule_minute_tick_locked_ctx now _

theorem ui_timer_cb_ctx_of_reached (cfg : config) (now : Int) (w : world)
    (hr : is_running w.ctx = true)
    (hreach : current_elapsed_locked now w.ctx ≥ w.ctx.phase_length_s)
    (hgap : ((now - w.ctx.phase_started_ms) / 1000).toNat + w.ctx.phase_length_s
      < 4294967296) :
    (ui_timer_cb cfg now w).ctx =
      (complete_phase_locked now
        { w with ctx := { w.ctx with elapsed_s := w.ctx.phase_length_s } }).ctx := by
  have hd := delta_seconds_le now w.ctx w.ctx.phase_length_s hgap
  have hE : current_elapsed_locked now w.ctx = w.ctx.phase_length_s := by
    have : current_elapsed_locked now w.ctx ≤ w.ctx.phase_length_s := by
      rw [current_elapsed_locked_eq]
      simp only [hr, Bool.not_true, Bool.false_eq_true, if_false]
      exact Nat.min_le_right _ _
    omega
  have hrem : remaining_locked now { w.ctx with elapsed_s := w.ctx.phase_length_s } = 0 := by
    have hr2 : is_running { w.ctx with elapsed_s := w.ctx.phase_length_s } = true := hr
    have hd2 : delta_seconds now { w.ctx with elapsed_s := w.ctx.phase_length_s } =
        delta_seconds now w.ctx := rfl
    unfold remaining_locked
    rw [current_elapsed_locked_eq]
    simp only [hr2, hd2, Bool.not_true, Bool.false_eq_true, if_false]
    have : (w.ctx.phase_length_s + delta_seconds now w.ctx) % UINT32_MOD =
        w.ctx.phase_length_s + delta_seconds now w.ctx := by
      unfold UINT32_MOD; omega
    rw [this]
    simp
  rw [ui_timer_cb_eq]
  simp only [refresh_display_locked_ctx, hr, if_true, hE, hrem]

theorem status_work_ctx (cfg : config) (s : Nat) (t : Int) :
    status_triple (snapshot_locked cfg t (work_ctx s t)) = (POMODORO_STATE_WORK, s, 1500) := by
  simp [status_triple, snapshot_locked, remaining_locked, current_elapsed_locked, is_running,
    delta_seconds, work_ctx, POMODORO_WORK_SECONDS, POMODORO_DEFAULT_WORK_SECONDS]

theorem status_break_ctx (cfg : config) (s : Nat) (t : Int) :
    status_triple (snapshot_locked cfg t (break_ctx s t)) = (POMODORO_STATE_BREAK, s, 300) := by
  simp [status_triple, snapshot_locked, remaining_locked, current_elapsed_locked, is_running,
    delta_seconds, break_ctx, POMODORO_BREAK_SECONDS, POMODORO_DEFAULT_BREAK_SECONDS]

theorem step_start_ctx (cfg : config) (w : world) (t : Int) (h : is_running w.ctx = false) :
    (step cfg w t POMODORO_ACTION_START).ctx = work_ctx 1 t := by
  simp only [step, pomodoro_start, h, Bool.false_eq_true, if_false, refresh_display_locked_ctx,
    start_phase_locked_work_ctx, work_ctx]

theorem step_tick_work_ctx (cfg : config) (w : world) (tick : event) (s : Nat) (t : Int)
    (htick : tick = UI_TICK ∨ tick = MINUTE_TICK) (h : w.ctx = work_ctx s t) :
    (step cfg w (t + 1500000) tick).ctx = break_ctx s (t + 1500000) := by
  have hui : (ui_timer_cb cfg (t + 1500000) w).ctx = break_ctx s (t + 1500000) := by
    have hrun : is_running w.ctx = true := by rw [h]; rfl
    have hd : delta_seconds (t + 1500000) w.ctx = 1500 := by
      rw [h]; simp [delta_seconds, work_ctx, UINT32_MOD]
    have hreach : current_elapsed_locked (t + 1500000) w.ctx ≥ w.ctx.phase_length_s := by
      rw [current_elapsed_locked_eq]
      simp only [hrun, hd, Bool.not_true, Bool.false_eq_true, if_false]
      rw [h]
      simp [work_ctx, UINT32_MOD, POMODORO_WORK_SECONDS, POMODORO_DEFAULT_WORK_SECONDS]
    have hgap : ((t + 1500000 - w.ctx.phase_started_ms) / 1000).toNat + w.ctx.phase_length_s
        < 4294967296 := by
      rw [h]; simp [work_ctx, POMODORO_WORK_SECONDS, POMODORO_DEFAULT_WORK_SECONDS]
    rw [ui_timer_cb_ctx_of_reached cfg (t + 1500000) w hrun hreach hgap]
    unfold complete_phase_locked
    have hph : w.ctx.phase = POMODORO_PHASE_WORK := by rw [h]; rfl
    have hs : w.ctx.session = s := by rw [h]; rfl
    simp only [hph, if_true, complete_work_locked_ctx, hs, break_ctx]
  rcases htick with e | e
  · rw [e]; exact hui
  · rw [e]; simp only [step]; rw [minute_tick_cb_ctx]; exact hui

theorem step_skip_break_ctx (cfg : config) (w : world) (s : Nat) (t b : Int)
    (hs : s < POMODORO_MAX_SESSIONS) (h : w.ctx = break_ctx s t) :
    (step cfg w b POMODORO_ACTION_BREAK_SKIP).ctx = work_ctx (s + 1) b := by
  have hph : w.ctx.phase = POMODORO_PHASE_BREAK := by rw [h]; rfl
  have hse : w.ctx.session = s := by rw [h]; rfl
  simp only [POMODORO_MAX_SESSIONS] at hs
  have hm : (s + 1) % UINT8_MOD = s + 1 := by simp only [UINT8_MOD]; omega
  have hle : ¬ (s + 1 > POMODORO_MAX_SESSIONS) := by simp only [POMODORO_MAX_SESSIONS]; omega
  simp only [step, pomodoro_break_skip, hph, if_true, refresh_display_locked_ctx,
    complete_break_locked_ctx, hse, hm, hle, if_false, work_ctx]

theorem step_skip_last_break_ctx (cfg : config) (w : world) (t b : Int)
    (h : w.ctx = break_ctx POMODORO_MAX_SESSIONS t) :
    (step cfg w b POMODORO_ACTION_BREAK_SKIP).ctx = ctx_init := by
  have hph : w.ctx.phase = POMODORO_PHASE_BREAK := by rw [h]; rfl
  have hse : w.ctx.session = POMODORO_MAX_SESSIONS := by rw [h]; rfl
  have hgt : (POMODORO_MAX_SESSIONS + 1) % UINT8_MOD > POMODORO_MAX_SESSIONS := by decide
  simp only [step, pomodoro_break_skip, hph, if_true, refresh_display_locked_ctx,
    complete_break_locked_ctx, hse, hgt]

theorem complete_break_locked_phase (now : Int) (w : world) :
    (complete_break_locked now w).ctx.phase ≠ POMODORO_PHASE_BREAK := by
  rw [complete_break_locked_ctx]
  split <;> simp [ctx_init]

theorem resume_paused_locked_phase (now : Int) (w : world) :
    (resume_paused_locked now w).ctx.phase ≠ POMODORO_PHASE_BREAK := by
  rw [resume_paused_locked_ctx]
  split
  · exact complete_break_locked_phase now w
  · simp

theorem complete_phase_locked_enters_break (now : Int) (w : world)
    (h : (complete_phase_locked now w).ctx.phase = POMODORO_PHASE_BREAK) :
    (complete_phase_locked now w).ctx.phase_length_s = POMODORO_BREAK_SECONDS := by
  unfold complete_phase_locked at h ⊢
  split
  · rw [complete_work_locked_ctx]
  · rename_i hw
    simp only [hw, if_false] at h
    exact absurd h (complete_break_locked_phase now w)

theorem step_enters_break (cfg : config) (w : world) (now : Int) (e : event)
    (hb : w.ctx.phase ≠ POMODORO_PHASE_BREAK)
    (h : (step cfg w now e).ctx.phase = POMODORO_PHASE_BREAK) :
    (step cfg w now e).ctx.phase_length_s = POMODORO_BREAK_SECONDS := by
  have hskip : (pomodoro_break_skip cfg now w).2.ctx.phase ≠ POMODORO_PHASE_BREAK := by
    simp only [pomodoro_break_skip]
    split
    · exact complete_break_locked_phase now w
    · exact hb
  have hresume : (pomodoro_resume cfg now w).2.ctx.phase ≠ POMODORO_PHASE_BREAK := by
    simp only [pomodoro_resume_eq]
    split
    · exact resume_paused_locked_phase now w
    · split
      · exact complete_break_locked_phase now w
      · exact hb
  cases e with
  | POMODORO_ACTION_START =>
    simp only [step, pomodoro_start] at h
    split at h
    · exact absurd h hb
    · simp [refresh_display_locked_ctx, start_phase_locked_work_ctx] at h
  | POMODORO_ACTION_PAUSE =>
    simp only [step, pomodoro_pause_eq] at h
    split at h
    · simp only [refresh_display_locked_ctx, pause_running_locked_ctx] at h
      exact absurd h hb
    · split at h
      · exact absurd h (resume_paused_locked_phase now w)
      · exact absurd h hb
  | POMODORO_ACTION_STOP =>
    simp [step, pomodoro_stop, refresh_display_locked_ctx, stop_locked_ctx, ctx_init] at h
  | POMODORO_ACTION_SMART =>
    simp only [step, pomodoro_smart_eq, refresh_display_locked_ctx] at h
    split at h
    · simp [start_phase_locked_work_ctx] at h
    · split at h
      · exact absurd h (resume_paused_locked_phase now w)
      · split at h
        · exact absurd h (complete_break_locked_phase now w)
        · simp only [pause_running_locked_ctx] at h
          exact absurd h hb
  | POMODORO_ACTION_RESUME => exact absurd h hresume
  | POMODORO_ACTION_BREAK_EXTEND =>
    simp only [step, pomodoro_break_extend_ctx] at h
    split at h
    · exact absurd h hb
    · exact absurd h hb
  | POMODORO_ACTION_BREAK_SKIP => exact absurd h hskip
  | UI_TICK =>
    simp only [step, ui_timer_cb_eq, refresh_display_locked_ctx] at h ⊢
    split at h
    · split at h
      · rename_i hr hz
        simp only [hr, hz, if_true]
        exact complete_phase_locked_enters_break now _ h
      · exact absurd h hb
    · exact absurd h hb
  | MINUTE_TICK =>
    simp only [step] at h ⊢
    rw [minute_tick_cb_ctx] at h ⊢
    simp only [ui_timer_cb_eq, refresh_display_locked_ctx] at h ⊢
    split at h
    · split at h
      · rename_i hr hz
        simp only [hr, hz, if_true]
        exact complete_phase_locked_enters_break now _ h
      · exact absurd h hb
    · exact absurd h hb
  | KEY ev =>
    simp only [step, pomodoro_any_key_handler] at h
    split at h
    · exact absurd h hb
    · split at h
      · exact absurd h hb
      · exact absurd h hb
      · split at h
        · exact absurd h hskip
        · split at h
          · exact absurd h hresume
          · exact absurd h hb

theorem schedule_minute_tick_locked_display (now : Int) (w : world) :
    (schedule_minute_tick_locked now w).display = w.display := by
  unfold schedule_minute_tick_locked
  split <;> rfl

theorem start_phase_locked_display (now : Int) (phase : pomodoro_phase) (reset_session : Bool)
    (w : world) : (start_phase_locked now phase reset_session w).display = w.display := by
  simp only [start_phase_locked, schedule_minute_tick_locked_display, start_ui_timer_locked_eq,
    reset_phase_timing_locked]

/-! ## The claims -/

/-- C1 (the code departs from the claim): after `pomodoro_start` at uptime 0 the
derived elapsed time at 1000 ms is 1 s, below the phase length; one tick at
1000 ms (either callback) stores that value without moving `phase_started_ms`,
so the derived elapsed time at the same reading becomes 2 s and the emitted
snapshot shows 1498 s remaining instead of 1499 s; with one refresh tick per
second the Work phase is left after 54 ticks, at 54 s instead of 1500 s. -/
theorem C1_tick_changes_elapsed :
    current_elapsed_locked 1000 (run cfg_example [(0, POMODORO_ACTION_START)]).ctx = 1 ∧
    (run cfg_example [(0, POMODORO_ACTION_START)]).ctx.phase_length_s = 1500 ∧
    (run cfg_example [(0, POMODORO_ACTION_START)]).ctx.ui_timer_running = true ∧
    current_elapsed_locked 1000
      (ui_timer_cb cfg_example 1000 (run cfg_example [(0, POMODORO_ACTION_START)])).ctx = 2 ∧
    current_elapsed_locked 1000
      (minute_tick_cb cfg_example 1000 (run cfg_example [(0, POMODORO_ACTION_START)])).ctx = 2 ∧
    ((ui_timer_cb cfg_example 1000
      (run cfg_example [(0, POMODORO_ACTION_START)])).display.getLast?.map
        (fun s => s.1.remaining_seconds)) = some 1498 ∧
    current_elapsed_locked 54000 (run cfg_example (ticking_trace 53)).ctx = 1485 ∧
    (run cfg_example (ticking_trace 53)).ctx.state = POMODORO_STATE_WORK ∧
    (run cfg_example (ticking_trace 54)).ctx.state = POMODORO_STATE_BREAK := by
  refine ⟨by decide, by decide, by decide, by decide, by decide, by decide, ?_, ?_, ?_⟩
  · set_option maxRecDepth 100000 in decide
  · set_option maxRecDepth 100000 in decide
  · set_option maxRecDepth 100000 in decide

/-- C2: in every reachable system, observed at any clock reading `t`, the
derived elapsed time is at most the phase length, and the snapshot has
`remaining_seconds ≤ phase_total_seconds` with
`remaining_seconds + elapsed = phase_total_seconds` (all three are unsigned,
so non-negative). -/
theorem C2_elapsed_within_phase (cfg : config) (hv : cfg.valid) (w : world)
    (hr : reachable cfg w) (t : Int) :
    current_elapsed_locked t w.ctx ≤ w.ctx.phase_length_s ∧
    (snapshot_locked cfg t w.ctx).phase_total_seconds = w.ctx.phase_length_s ∧
    (snapshot_locked cfg t w.ctx).remaining_seconds ≤
      (snapshot_locked cfg t w.ctx).phase_total_seconds ∧
    (snapshot_locked cfg t w.ctx).remaining_seconds + current_elapsed_locked t w.ctx =
      (snapshot_locked cfg t w.ctx).phase_total_seconds := by
  have hb := reachable_ctx_bound cfg hv w hr
  exact ⟨current_elapsed_locked_le t w.ctx hb.2.1, rfl, remaining_locked_le t w.ctx,
    remaining_locked_add t w.ctx hb.2.1⟩

/-- Witness for C2: the system after a start at 0 ms, a refresh tick at 1000 ms
and a pause at 2500 ms, observed at 9000 ms. -/
theorem C2_elapsed_within_phase_witness :
    current_elapsed_locked 9000 (run cfg_example [(0, POMODORO_ACTION_START), (1000, UI_TICK),
        (2500, POMODORO_ACTION_PAUSE)]).ctx ≤
      (run cfg_example [(0, POMODORO_ACTION_START), (1000, UI_TICK),
        (2500, POMODORO_ACTION_PAUSE)]).ctx.phase_length_s :=
  (C2_elapsed_within_phase cfg_example (by decide)
    (run cfg_example [(0, POMODORO_ACTION_START), (1000, UI_TICK),
      (2500, POMODORO_ACTION_PAUSE)])
    ⟨[(0, POMODORO_ACTION_START), (1000, UI_TICK), (2500, POMODORO_ACTION_PAUSE)],
      by decide, rfl⟩ 9000).1

/-- C3, the claim as stated fails: for the running Work context left by a start
at uptime 0 (stored elapsed 0, phase length 1500) and the clock reading
4294967296000 ms, a valid `int64_t`, the gap is 2^32 s; its conversion to
`uint32_t` is 0, so the code returns 0 where the unbounded formula gives
1500. -/
theorem C3_wraps_at_two_pow_32 :
    is_running (run cfg_example [(0, POMODORO_ACTION_START)]).ctx = true ∧
    (run cfg_example [(0, POMODORO_ACTION_START)]).ctx.elapsed_s ≤
      (run cfg_example [(0, POMODORO_ACTION_START)]).ctx.phase_length_s ∧
    (4294967296000 : Int) < 2 ^ 63 ∧
    current_elapsed_locked 4294967296000 (run cfg_example [(0, POMODORO_ACTION_START)]).ctx = 0 ∧
    current_elapsed_spec 4294967296000
      (run cfg_example [(0, POMODORO_ACTION_START)]).ctx = 1500 ∧
    current_elapsed_locked 4294967296000 (run cfg_example [(0, POMODORO_ACTION_START)]).ctx ≠
      current_elapsed_spec 4294967296000 (run cfg_example [(0, POMODORO_ACTION_START)]).ctx := by
  decide

/-- C3 as amended: for every running context and every clock reading at which
the true sum `elapsed_s + max(0, floor((now - phase_started_ms) / 1000))` is
below 2^32, `current_elapsed_locked` returns exactly that sum clamped to the
phase length; in particular it returns the phase length whenever the sum has
reached it. -/
theorem C3_current_elapsed_exact (now : Int) (c : pomodoro_context)
    (hr : is_running c = true)
    (hfit : c.elapsed_s + (max 0 ((now - c.phase_started_ms) / 1000)).toNat < 4294967296) :
    current_elapsed_locked now c = current_elapsed_spec now c ∧
    (c.phase_length_s ≤ c.elapsed_s + (max 0 ((now - c.phase_started_ms) / 1000)).toNat →
      current_elapsed_locked now c = c.phase_length_s) := by
  have hd : delta_seconds now c = (max 0 ((now - c.phase_started_ms) / 1000)).toNat := by
    unfold delta_seconds UINT32_MOD
    simp only []
    split <;> omega
  have he : current_elapsed_locked now c = current_elapsed_spec now c := by
    rw [current_elapsed_locked_eq]
    unfold current_elapsed_spec UINT32_MOD
    simp only [hr, hd, Bool.not_true, Bool.false_eq_true, if_false]
    rw [Nat.mod_eq_of_lt hfit]
  refine ⟨he, fun hge => ?_⟩
  rw [he]
  unfold current_elapsed_spec
  exact Nat.min_eq_right hge

/-- Witness for C3: the Work context left by a start at uptime 0, read ten hours
later. -/
theorem C3_current_elapsed_exact_witness :
    current_elapsed_locked 36000000 (run cfg_example [(0, POMODORO_ACTION_START)]).ctx =
      current_elapsed_spec 36000000 (run cfg_example [(0, POMODORO_ACTION_START)]).ctx :=
  (C3_current_elapsed_exact 36000000 (run cfg_example [(0, POMODORO_ACTION_START)]).ctx
    (by decide) (by decide)).1

/-- C4, the claim as stated fails: the Work context left by a start at uptime 0
is reachable, and at the clock reading 4294967295000 ms its derived elapsed
time has reached the phase length 1500; yet one tick there (either callback)
leaves the state at Working, because the stored 1500 plus the gap of
2^32 - 1 s wraps to 1499 in the completion test. -/
theorem C4_no_completion_after_wrap :
    (run cfg_example [(0, POMODORO_ACTION_START)]).ctx.state = POMODORO_STATE_WORK ∧
    current_elapsed_locked 4294967295000 (run cfg_example [(0, POMODORO_ACTION_START)]).ctx =
      (run cfg_example [(0, POMODORO_ACTION_START)]).ctx.phase_length_s ∧
    (ui_timer_cb cfg_example 4294967295000
      (run cfg_example [(0, POMODORO_ACTION_START)])).ctx.state = POMODORO_STATE_WORK ∧
    (minute_tick_cb cfg_example 4294967295000
      (run cfg_example [(0, POMODORO_ACTION_START)])).ctx.state = POMODORO_STATE_WORK := by
  decide

/-- C4 as amended: for every reachable system and every clock reading `t` at
which the derived elapsed time has reached the phase length and the gap in
whole seconds plus the phase length stays below 2^32: from Working with session
`s`, one tick (either callback) gives OnBreak, phase Break, session `s`, stored
elapsed 0, phase length 300 and 300 s remaining at `t`; from OnBreak with
session 4, one tick gives Idle with session 0. -/
theorem C4_tick_completion (cfg : config) (w : world) (hr : reachable cfg w) (t : Int)
    (hreach : current_elapsed_locked t w.ctx ≥ w.ctx.phase_length_s)
    (hgap : ((t - w.ctx.phase_started_ms) / 1000).toNat + w.ctx.phase_length_s
      < 4294967296) :
    (w.ctx.state = POMODORO_STATE_WORK →
      (ui_timer_cb cfg t w).ctx.state = POMODORO_STATE_BREAK ∧
      (ui_timer_cb cfg t w).ctx.phase = POMODORO_PHASE_BREAK ∧
      (ui_timer_cb cfg t w).ctx.session = w.ctx.session ∧
      (ui_timer_cb cfg t w).ctx.elapsed_s = 0 ∧
      (ui_timer_cb cfg t w).ctx.phase_length_s = 300 ∧
      (snapshot_locked cfg t (ui_timer_cb cfg t w).ctx).remaining_seconds = 300 ∧
      (minute_tick_cb cfg t w).ctx = (ui_timer_cb cfg t w).ctx) ∧
    (w.ctx.state = POMODORO_STATE_BREAK → w.ctx.session = 4 →
      (ui_timer_cb cfg t w).ctx.state = POMODORO_STATE_IDLE ∧
      (ui_timer_cb cfg t w).ctx.session = 0 ∧
      (minute_tick_cb cfg t w).ctx = (ui_timer_cb cfg t w).ctx) := by
  have hinv := reachable_ctx_inv cfg w hr
  obtain ⟨h1, h2, h3, h4, h5, h6, h7⟩ := hinv
  constructor
  · intro hs
    have hrun : is_running w.ctx = true := (is_running_iff w.ctx).mpr (Or.inl hs)
    have hctx := ui_timer_cb_ctx_of_reached cfg t w hrun hreach hgap
    have hph := h2 hs
    rw [minute_tick_cb_ctx, hctx]
    unfold complete_phase_locked
    simp only [hph, if_true, complete_work_locked_ctx]
    simp [snapshot_locked, remaining_locked, current_elapsed_locked, is_running,
      delta_seconds, POMODORO_BREAK_SECONDS, POMODORO_DEFAULT_BREAK_SECONDS]
  · intro hs h4s
    have hrun : is_running w.ctx = true := (is_running_iff w.ctx).mpr (Or.inr hs)
    have hctx := ui_timer_cb_ctx_of_reached cfg t w hrun hreach hgap
    have hph := h3 hs
    rw [minute_tick_cb_ctx, hctx]
    unfold complete_phase_locked
    simp [hph, complete_break_locked_ctx, h4s, UINT8_MOD, POMODORO_MAX_SESSIONS, ctx_init]

/-- Witness for C4: the Work phase started at uptime 0, ticked once at
1500000 ms. -/
theorem C4_tick_completion_witness :
    (ui_timer_cb cfg_example 1500000
      (run cfg_example [(0, POMODORO_ACTION_START)])).ctx.state = POMODORO_STATE_BREAK :=
  ((C4_tick_completion cfg_example (run cfg_example [(0, POMODORO_ACTION_START)])
    ⟨[(0, POMODORO_ACTION_START)], by decide, rfl⟩ 1500000 (by decide) (by decide)).1
      (by decide)).1

/-- C5: the full cycle.  From the initial system, `pomodoro_start` at `t0`
shows (Working, 1, 1500); a tick 1500 s later shows (OnBreak, 1, 300);
`pomodoro_break_skip` (at any reading `b1`) shows (Working, 2, 1500); repeating
tick after 1500 s and skip through the break of session 4, the fourth skip
shows (Idle, 0, _).  Each status is taken at the reading of the step that
produced it; `tick` is either of the two tick callbacks. -/
theorem C5_full_cycle (cfg : config) (tick : event)
    (htick : tick = UI_TICK ∨ tick = MINUTE_TICK) (t0 b1 b2 b3 b4 : Int) :
    status_triple (pomodoro_current_status cfg t0
        (run cfg [(t0, POMODORO_ACTION_START)])) =
      (POMODORO_STATE_WORK, 1, 1500) ∧
    status_triple (pomodoro_current_status cfg (t0 + 1500000)
        (run cfg [(t0, POMODORO_ACTION_START), (t0 + 1500000, tick)])) =
      (POMODORO_STATE_BREAK, 1, 300) ∧
    status_triple (pomodoro_current_status cfg b1
        (run cfg [(t0, POMODORO_ACTION_START), (t0 + 1500000, tick),
          (b1, POMODORO_ACTION_BREAK_SKIP)])) =
      (POMODORO_STATE_WORK, 2, 1500) ∧
    status_triple (pomodoro_current_status cfg (b1 + 1500000)
        (run cfg [(t0, POMODORO_ACTION_START), (t0 + 1500000, tick),
          (b1, POMODORO_ACTION_BREAK_SKIP), (b1 + 1500000, tick)])) =
      (POMODORO_STATE_BREAK, 2, 300) ∧
    status_triple (pomodoro_current_status cfg b2
        (run cfg [(t0, POMODORO_ACTION_START), (t0 + 1500000, tick),
          (b1, POMODORO_ACTION_BREAK_SKIP), (b1 + 1500000, tick),
          (b2, POMODORO_ACTION_BREAK_SKIP)])) =
      (POMODORO_STATE_WORK, 3, 1500) ∧
    status_triple (pomodoro_current_status cfg (b2 + 1500000)
        (run cfg [(t0, POMODORO_ACTION_START), (t0 + 1500000, tick),
          (b1, POMODORO_ACTION_BREAK_SKIP), (b1 + 1500000, tick),
          (b2, POMODORO_ACTION_BREAK_SKIP), (b2 + 1500000, tick)])) =
      (POMODORO_STATE_BREAK, 3, 300) ∧
    status_triple (pomodoro_current_status cfg b3
        (run cfg [(t0, POMODORO_ACTION_START), (t0 + 1500000, tick),
          (b1, POMODORO_ACTION_BREAK_SKIP), (b1 + 1500000, tick),
          (b2, POMODORO_ACTION_BREAK_SKIP), (b2 + 1500000, tick),
          (b3, POMODORO_ACTION_BREAK_SKIP)])) =
      (POMODORO_STATE_WORK, 4, 1500) ∧
    status_triple (pomodoro_current_status cfg (b3 + 1500000)
        (run cfg [(t0, POMODORO_ACTION_START), (t0 + 1500000, tick),
          (b1, POMODORO_ACTION_BREAK_SKIP), (b1 + 1500000, tick),
          (b2, POMODORO_ACTION_BREAK_SKIP), (b2 + 1500000, tick),
          (b3, POMODORO_ACTION_BREAK_SKIP), (b3 + 1500000, tick)])) =
      (POMODORO_STATE_BREAK, 4, 300) ∧
    (run cfg [(t0, POMODORO_ACTION_START), (t0 + 1500000, tick),
          (b1, POMODORO_ACTION_BREAK_SKIP), (b1 + 1500000, tick),
          (b2, POMODORO_ACTION_BREAK_SKIP), (b2 + 1500000, tick),
          (b3, POMODORO_ACTION_BREAK_SKIP), (b3 + 1500000, tick),
          (b4, POMODORO_ACTION_BREAK_SKIP)]).ctx = ctx_init := by
  have e1 : (step cfg world_init t0 POMODORO_ACTION_START).ctx = work_ctx 1 t0 :=
    step_start_ctx cfg world_init t0 rfl
  have e2 := step_tick_work_ctx cfg _ tick 1 t0 htick e1
  have e3 := step_skip_break_ctx cfg _ 1 (t0 + 1500000) b1 (by decide) e2
  have e4 := step_tick_work_ctx cfg _ tick 2 b1 htick e3
  have e5 := step_skip_break_ctx cfg _ 2 (b1 + 1500000) b2 (by decide) e4
  have e6 := step_tick_work_ctx cfg _ tick 3 b2 htick e5
  have e7 := step_skip_break_ctx cfg _ 3 (b2 + 1500000) b3 (by decide) e6
  have e8 := step_tick_work_ctx cfg _ tick 4 b3 htick e7
  have e9 := step_skip_last_break_ctx cfg _ (b3 + 1500000) b4 e8
  simp only [run, run_from, pomodoro_current_status]
  rw [e1, e2, e3, e4, e5, e6, e7, e8, e9]
  simp only [status_work_ctx, status_break_ctx, and_self]

/-- Witness for C5: the cycle started at uptime 0 with refresh ticks and each
break skipped one second after it began. -/
theorem C5_full_cycle_witness :
    (run cfg_example [(0, POMODORO_ACTION_START), (0 + 1500000, UI_TICK),
          (1501000, POMODORO_ACTION_BREAK_SKIP), (1501000 + 1500000, UI_TICK),
          (3002000, POMODORO_ACTION_BREAK_SKIP), (3002000 + 1500000, UI_TICK),
          (4503000, POMODORO_ACTION_BREAK_SKIP), (4503000 + 1500000, UI_TICK),
          (6004000, POMODORO_ACTION_BREAK_SKIP)]).ctx = ctx_init :=
  (C5_full_cycle cfg_example UI_TICK (Or.inl rfl) 0 1501000 3002000 4503000
    6004000).2.2.2.2.2.2.2.2

/-- C6: in every reachable system `phase == NONE` exactly when
`state == IDLE`, and a paused state has phase Work or Break. -/
theorem C6_state_phase_coupling (cfg : config) (w : world) (hr : reachable cfg w) :
    (w.ctx.phase = POMODORO_PHASE_NONE ↔ w.ctx.state = POMODORO_STATE_IDLE) ∧
    (w.ctx.state = POMODORO_STATE_PAUSED →
      w.ctx.phase = POMODORO_PHASE_WORK ∨ w.ctx.phase = POMODORO_PHASE_BREAK) := by
  obtain ⟨h1, h2, h3, h4, h5, h6, h7⟩ := reachable_ctx_inv cfg w hr
  refine ⟨h1.symm, fun hp => ?_⟩
  have hne : w.ctx.phase ≠ POMODORO_PHASE_NONE := fun h0 => by
    have := h1.mpr h0; rw [hp] at this; cases this
  cases hph : w.ctx.phase
  · exact absurd hph hne
  · exact Or.inl rfl
  · exact Or.inr rfl

/-- Witness for C6: a break paused after the work phase of session 1. -/
theorem C6_state_phase_coupling_witness :
    (run cfg_example [(0, POMODORO_ACTION_START), (1500000, MINUTE_TICK),
        (1600000, POMODORO_ACTION_PAUSE)]).ctx.state = POMODORO_STATE_PAUSED ∧
    ((run cfg_example [(0, POMODORO_ACTION_START), (1500000, MINUTE_TICK),
        (1600000, POMODORO_ACTION_PAUSE)]).ctx.phase = POMODORO_PHASE_WORK ∨
      (run cfg_example [(0, POMODORO_ACTION_START), (1500000, MINUTE_TICK),
        (1600000, POMODORO_ACTION_PAUSE)]).ctx.phase = POMODORO_PHASE_BREAK) :=
  ⟨by decide, (C6_state_phase_coupling cfg_example
    (run cfg_example [(0, POMODORO_ACTION_START), (1500000, MINUTE_TICK),
      (1600000, POMODORO_ACTION_PAUSE)])
    ⟨[(0, POMODORO_ACTION_START), (1500000, MINUTE_TICK), (1600000, POMODORO_ACTION_PAUSE)],
      by decide, rfl⟩).2 (by decide)⟩

/-- C7: in every reachable system `session == 0` exactly when `state == IDLE`,
otherwise `1 ≤ session ≤ POMODORO_MAX_SESSIONS`; the snapshot's session lies in
`0..max_sessions`, and the 8-bit increment of the counter never wraps. -/
theorem C7_session_bound (cfg : config) (w : world) (hr : reachable cfg w) (t : Int) :
    (w.ctx.session = 0 ↔ w.ctx.state = POMODORO_STATE_IDLE) ∧
    (w.ctx.state ≠ POMODORO_STATE_IDLE →
      1 ≤ w.ctx.session ∧ w.ctx.session ≤ POMODORO_MAX_SESSIONS) ∧
    (snapshot_locked cfg t w.ctx).session ≤ (snapshot_locked cfg t w.ctx).max_sessions ∧
    (w.ctx.session + 1) % UINT8_MOD = w.ctx.session + 1 := by
  obtain ⟨h1, h2, h3, h4, h5, h6, h7⟩ := reachable_ctx_inv cfg w hr
  refine ⟨h4.symm, fun hne => ⟨?_, h5⟩, h5, ?_⟩
  · have : w.ctx.session ≠ 0 := fun h0 => hne (h4.mpr h0)
    omega
  · simp only [POMODORO_MAX_SESSIONS] at h5
    simp only [UINT8_MOD]
    omega

/-- Witness for C7: session 2, entered by skipping the first break. -/
theorem C7_session_bound_witness :
    (run cfg_example [(0, POMODORO_ACTION_START), (1500000, UI_TICK),
        (1500500, POMODORO_ACTION_BREAK_SKIP)]).ctx.session = 2 ∧
    ((run cfg_example [(0, POMODORO_ACTION_START), (1500000, UI_TICK),
        (1500500, POMODORO_ACTION_BREAK_SKIP)]).ctx.session + 1) % UINT8_MOD =
      (run cfg_example [(0, POMODORO_ACTION_START), (1500000, UI_TICK),
        (1500500, POMODORO_ACTION_BREAK_SKIP)]).ctx.session + 1 :=
  ⟨by decide, (C7_session_bound cfg_example
    (run cfg_example [(0, POMODORO_ACTION_START), (1500000, UI_TICK),
      (1500500, POMODORO_ACTION_BREAK_SKIP)])
    ⟨[(0, POMODORO_ACTION_START), (1500000, UI_TICK), (1500500, POMODORO_ACTION_BREAK_SKIP)],
      by decide, rfl⟩ 0).2.2.2⟩

/-- C8 (with a configuration whose ceiling expression is a valid C `int`): in
every reachable system a Work phase has length 1500; a Break phase has length
at least 300 and, when the ceiling is at least 300, at most the ceiling; and
whenever a step takes the phase from something else to Break, the new phase
length is exactly 300. -/
theorem C8_phase_length (cfg : config) (hv : cfg.valid) (w : world) (hr : reachable cfg w) :
    (w.ctx.phase = POMODORO_PHASE_WORK → w.ctx.phase_length_s = 1500) ∧
    (w.ctx.phase = POMODORO_PHASE_BREAK →
      300 ≤ w.ctx.phase_length_s ∧
      (300 ≤ cfg.ceiling → w.ctx.phase_length_s ≤ cfg.ceiling)) ∧
    (∀ (now : Int) (e : event), w.ctx.phase ≠ POMODORO_PHASE_BREAK →
      (step cfg w now e).ctx.phase = POMODORO_PHASE_BREAK →
      (step cfg w now e).ctx.phase_length_s = 300) := by
  have hi := reachable_ctx_inv cfg w hr
  have hb := reachable_ctx_bound cfg hv w hr
  exact ⟨hi.2.2.2.2.2.1, hb.1, fun now e hne hph => step_enters_break cfg w now e hne hph⟩

/-- Witness for C8: a break extended twice under the 15 minute ceiling. -/
theorem C8_phase_length_witness :
    (run cfg_example [(0, POMODORO_ACTION_START), (1500000, UI_TICK),
        (1501000, POMODORO_ACTION_BREAK_EXTEND),
        (1502000, POMODORO_ACTION_BREAK_EXTEND)]).ctx.phase_length_s = 420 ∧
    300 ≤ (run cfg_example [(0, POMODORO_ACTION_START), (1500000, UI_TICK),
        (1501000, POMODORO_ACTION_BREAK_EXTEND),
        (1502000, POMODORO_ACTION_BREAK_EXTEND)]).ctx.phase_length_s :=
  ⟨by decide, ((C8_phase_length cfg_example (by decide)
    (run cfg_example [(0, POMODORO_ACTION_START), (1500000, UI_TICK),
      (1501000, POMODORO_ACTION_BREAK_EXTEND), (1502000, POMODORO_ACTION_BREAK_EXTEND)])
    ⟨[(0, POMODORO_ACTION_START), (1500000, UI_TICK),
      (1501000, POMODORO_ACTION_BREAK_EXTEND), (1502000, POMODORO_ACTION_BREAK_EXTEND)],
      by decide, rfl⟩).2.1 (by decide)).1⟩

/-- C9: `pomodoro_start` at clock `now` from a state that is not running (Idle
or Paused, whatever the phase) returns 0 and leaves state Working, phase Work,
session 1, stored elapsed 0, phase length 1500, `phase_started_ms = now` and
the refresh timer armed; the status at `now` is Working, session 1, 1500 of
1500 s remaining; the completion check is armed and exactly one snapshot is
emitted, with `force = true`. -/
theorem C9_start_begins_cycle (cfg : config) (now : Int) (w : world)
    (h : w.ctx.state = POMODORO_STATE_IDLE ∨ w.ctx.state = POMODORO_STATE_PAUSED) :
    (pomodoro_start cfg now w).1 = 0 ∧
    (pomodoro_start cfg now w).2.ctx =
      { state := POMODORO_STATE_WORK, phase := POMODORO_PHASE_WORK, session := 1,
        phase_length_s := 1500, elapsed_s := 0, phase_started_ms := now,
        ui_timer_running := true } ∧
    (snapshot_locked cfg now (pomodoro_start cfg now w).2.ctx).state = POMODORO_STATE_WORK ∧
    (snapshot_locked cfg now (pomodoro_start cfg now w).2.ctx).session = 1 ∧
    (snapshot_locked cfg now (pomodoro_start cfg now w).2.ctx).remaining_seconds = 1500 ∧
    (snapshot_locked cfg now (pomodoro_start cfg now w).2.ctx).phase_total_seconds = 1500 ∧
    (pomodoro_start cfg now w).2.minute_tick_work = some 60 ∧
    (pomodoro_start cfg now w).2.display =
      w.display ++ [(snapshot_locked cfg now (pomodoro_start cfg now w).2.ctx, true)] := by
  have hr : is_running w.ctx = false := by
    rcases h with e | e <;> simp [is_running, e]
  have hctx : (pomodoro_start cfg now w).2.ctx = work_ctx 1 now :=
    step_start_ctx cfg w now hr
  have htr := status_work_ctx cfg 1 now
  simp only [status_triple, Prod.mk.injEq] at htr
  have hs : pomodoro_start cfg now w =
      (0, refresh_display_locked cfg now true
        (start_phase_locked now POMODORO_PHASE_WORK true w)) := by
    simp only [pomodoro_start, hr, Bool.false_eq_true, if_false]
  refine ⟨?_, ?_, ?_, ?_, ?_, ?_, ?_, ?_⟩
  · rw [hs]
  · rw [hctx]; rfl
  · rw [hctx]; exact htr.1
  · rw [hctx]; exact htr.2.1
  · rw [hctx]; exact htr.2.2
  · rw [hctx]; rfl
  · rw [hs]
    simp [refresh_display_locked, start_phase_locked,
      schedule_minute_tick_locked, start_ui_timer_locked_eq, reset_phase_timing_locked,
      is_running, remaining_locked, current_elapsed_locked, delta_seconds,
      POMODORO_WORK_SECONDS, POMODORO_DEFAULT_WORK_SECONDS, POMODORO_MINUTE_CHUNK]
  · rw [hs]
    simp only [refresh_display_locked, start_phase_locked_display]

/-- Witness for C9: a start at 7000 ms from a paused break. -/
theorem C9_start_begins_cycle_witness :
    (run cfg_example [(0, POMODORO_ACTION_START), (1500000, UI_TICK),
        (1501000, POMODORO_ACTION_PAUSE)]).ctx.state = POMODORO_STATE_PAUSED ∧
    (pomodoro_start cfg_example 1507000
      (run cfg_example [(0, POMODORO_ACTION_START), (1500000, UI_TICK),
        (1501000, POMODORO_ACTION_PAUSE)])).1 = 0 :=
  ⟨by decide, (C9_start_begins_cycle cfg_example 1507000
    (run cfg_example [(0, POMODORO_ACTION_START), (1500000, UI_TICK),
      (1501000, POMODORO_ACTION_PAUSE)]) (Or.inr (by decide))).1⟩

/-- C10: `pomodoro_start` is idempotent.  For every system and any two clock
readings (in particular `t1 ≤ t2`), a second start returns 0 and leaves the
whole system as the first start left it: no field of the context changes, the
timers are untouched and no snapshot is emitted. -/
theorem C10_start_idempotent (cfg : config) (w : world) (t1 t2 : Int) :
    pomodoro_start cfg t2 (pomodoro_start cfg t1 w).2 = (0, (pomodoro_start cfg t1 w).2) := by
  have hrun : is_running (pomodoro_start cfg t1 w).2.ctx = true := by
    cases hr : is_running w.ctx
    · have := step_start_ctx cfg w t1 hr
      simp only [step] at this
      rw [this]; rfl
    · simp [pomodoro_start, hr]
  generalize (pomodoro_start cfg t1 w).2 = v at hrun
  simp only [pomodoro_start, hrun, if_true]

/-! ## Lemmas on pause, resume, stop and skip -/

theorem pomodoro_pause_running (cfg : config) (now : Int) (w : world)
    (hr : is_running w.ctx = true) :
    pomodoro_pause cfg now w =
      (0, refresh_display_locked cfg now true (pause_running_locked now w)) := by
  rw [pomodoro_pause_eq]
  simp only [hr, if_true]

theorem pause_running_locked_minute_tick (now : Int) (w : world) :
    (pause_running_locked now w).minute_tick_work = none := rfl

theorem pause_running_locked_display (now : Int) (w : world) :
    (pause_running_locked now w).display = w.display := by
  simp only [pause_running_locked, stop_ui_timer_locked_eq]

theorem remaining_locked_pause_running (now : Int) (w : world) :
    remaining_locked now (pause_running_locked now w).ctx = remaining_locked now w.ctx := by
  rw [pause_running_locked_ctx]
  have he : current_elapsed_locked now
      { w.ctx with elapsed_s := current_elapsed_locked now w.ctx,
                   state := POMODORO_STATE_PAUSED, ui_timer_running := false } =
      current_elapsed_locked now w.ctx := by
    conv => lhs; rw [current_elapsed_locked_eq]
    simp [is_running]
  unfold remaining_locked
  simp only [he]

theorem current_elapsed_locked_lt (now : Int) (c : pomodoro_context)
    (hr : is_running c = true) : current_elapsed_locked now c < UINT32_MOD := by
  rw [current_elapsed_locked_eq]
  simp only [hr, Bool.not_true, Bool.false_eq_true, if_false]
  have : (c.elapsed_s + delta_seconds now c) % UINT32_MOD < UINT32_MOD :=
    Nat.mod_lt _ (by decide)
  exact lt_of_le_of_lt (Nat.min_le_left _ _) this

theorem current_elapsed_locked_le_running (now : Int) (c : pomodoro_context)
    (hr : is_running c = true) : current_elapsed_locked now c ≤ c.phase_length_s := by
  rw [current_elapsed_locked_eq]
  simp only [hr, Bool.not_true, Bool.false_eq_true, if_false]
  exact Nat.min_le_right _ _

theorem delta_seconds_self (t : Int) (c : pomodoro_context) (h : c.phase_started_ms = t) :
    delta_seconds t c = 0 := by
  simp [delta_seconds, h]

theorem pomodoro_resume_paused (cfg : config) (now : Int) (w : world)
    (hs : w.ctx.state = POMODORO_STATE_PAUSED) :
    pomodoro_resume cfg now w =
      (0, refresh_display_locked cfg now true (resume_paused_locked now w)) := by
  rw [pomodoro_resume_eq]
  simp only [hs, if_true]

theorem resume_paused_locked_break (now : Int) (w : world)
    (hp : w.ctx.phase = POMODORO_PHASE_BREAK) :
    resume_paused_locked now w = complete_break_locked now w := by
  simp [resume_paused_locked, is_break_phase, hp]

theorem pomodoro_stop_eq (cfg : config) (now : Int) (w : world) :
    pomodoro_stop cfg now w = (0, refresh_display_locked cfg now true (stop_locked w)) := rfl

theorem stop_locked_minute_tick (w : world) : (stop_locked w).minute_tick_work = none := by
  simp only [stop_locked, cancel_timers_locked, stop_ui_timer_locked_eq]

theorem stop_locked_display (w : world) : (stop_locked w).display = w.display := by
  simp only [stop_locked, cancel_timers_locked, stop_ui_timer_locked_eq]

theorem complete_break_locked_minute_tick_idle (now : Int) (w : world)
    (h : (w.ctx.session + 1) % UINT8_MOD > POMODORO_MAX_SESSIONS) :
    (complete_break_locked now w).minute_tick_work = none := by
  unfold complete_break_locked
  simp only [h, if_true, cancel_timers_locked, stop_ui_timer_locked_eq]

theorem pomodoro_pause_running_ctx (cfg : config) (now : Int) (w : world)
    (hr : is_running w.ctx = true) :
    (pomodoro_pause cfg now w).2.ctx =
      { w.ctx with elapsed_s := current_elapsed_locked now w.ctx,
                   state := POMODORO_STATE_PAUSED, ui_timer_running := false } := by
  rw [pomodoro_pause_running cfg now w hr]
  simp only [refresh_display_locked_ctx, pause_running_locked_ctx]

theorem pomodoro_resume_paused_work_ctx (cfg : config) (now : Int) (w : world)
    (hs : w.ctx.state = POMODORO_STATE_PAUSED) (hp : w.ctx.phase = POMODORO_PHASE_WORK) :
    (pomodoro_resume cfg now w).2.ctx =
      { w.ctx with state := POMODORO_STATE_WORK, phase := POMODORO_PHASE_WORK,
                   phase_started_ms := now, ui_timer_running := true } := by
  rw [pomodoro_resume_paused cfg now w hs]
  simp only [refresh_display_locked_ctx, resume_paused_locked_ctx, hp]
  simp

/-- C11: `pomodoro_pause` on a running context at clock `t` returns 0, stores the
derived elapsed time in `elapsed_s`, sets `state = PAUSED`, disarms the refresh
timer and cancels the completion check, leaving phase, session, phase length
and `phase_started_ms` as they were; the remaining seconds shown at `t` are the
same after the pause as before it, and exactly one snapshot is emitted, with
`force = true`. -/
theorem C11_pause_running (cfg : config) (t : Int) (w : world)
    (hr : is_running w.ctx = true) :
    (pomodoro_pause cfg t w).1 = 0 ∧
    (pomodoro_pause cfg t w).2.ctx =
      { state := POMODORO_STATE_PAUSED, phase := w.ctx.phase, session := w.ctx.session,
        phase_length_s := w.ctx.phase_length_s,
        elapsed_s := current_elapsed_locked t w.ctx,
        phase_started_ms := w.ctx.phase_started_ms, ui_timer_running := false } ∧
    (pomodoro_pause cfg t w).2.minute_tick_work = none ∧
    (snapshot_locked cfg t (pomodoro_pause cfg t w).2.ctx).remaining_seconds =
      (snapshot_locked cfg t w.ctx).remaining_seconds ∧
    (pomodoro_pause cfg t w).2.display =
      w.display ++ [(snapshot_locked cfg t (pomodoro_pause cfg t w).2.ctx, true)] := by
  rw [pomodoro_pause_running cfg t w hr]
  refine ⟨rfl, ?_, ?_, ?_, ?_⟩
  · simp only [refresh_display_locked_ctx, pause_running_locked_ctx]
  · exact pause_running_locked_minute_tick t w
  · simp only [refresh_display_locked_ctx, snapshot_locked]
    exact remaining_locked_pause_running t w
  · simp only [refresh_display_locked, pause_running_locked_display]

/-- Witness for C11: a Work phase started at uptime 0 and paused at 90500 ms. -/
theorem C11_pause_running_witness :
    (pomodoro_pause cfg_example 90500
      (run cfg_example [(0, POMODORO_ACTION_START)])).2.ctx.elapsed_s = 90 ∧
    (pomodoro_pause cfg_example 90500
      (run cfg_example [(0, POMODORO_ACTION_START)])).2.minute_tick_work = none :=
  ⟨by decide, (C11_pause_running cfg_example 90500
    (run cfg_example [(0, POMODORO_ACTION_START)]) (by decide)).2.2.1⟩

/-- C12: for every reachable system in state Working whose derived elapsed time
at `t0` is `T`, and every `t1 ≥ t0`, the sequence pause at `t0`, resume at `t1`,
pause at `t1` ends Paused with phase Work, the same session and phase length,
and stored `elapsed_s` exactly `T`. -/
theorem C12_pause_resume_round_trip (cfg : config) (w : world) (hr : reachable cfg w)
    (hs : w.ctx.state = POMODORO_STATE_WORK) (t0 t1 : Int) (_h01 : t0 ≤ t1) :
    (pomodoro_pause cfg t1
      (pomodoro_resume cfg t1 (pomodoro_pause cfg t0 w).2).2).2.ctx.state =
        POMODORO_STATE_PAUSED ∧
    (pomodoro_pause cfg t1
      (pomodoro_resume cfg t1 (pomodoro_pause cfg t0 w).2).2).2.ctx.phase =
        POMODORO_PHASE_WORK ∧
    (pomodoro_pause cfg t1
      (pomodoro_resume cfg t1 (pomodoro_pause cfg t0 w).2).2).2.ctx.session =
        w.ctx.session ∧
    (pomodoro_pause cfg t1
      (pomodoro_resume cfg t1 (pomodoro_pause cfg t0 w).2).2).2.ctx.phase_length_s =
        w.ctx.phase_length_s ∧
    (pomodoro_pause cfg t1
      (pomodoro_resume cfg t1 (pomodoro_pause cfg t0 w).2).2).2.ctx.elapsed_s =
        current_elapsed_locked t0 w.ctx := by
  have hinv := reachable_ctx_inv cfg w hr
  have hph : w.ctx.phase = POMODORO_PHASE_WORK := hinv.2.1 hs
  have hrun : is_running w.ctx = true := (is_running_iff w.ctx).mpr (Or.inl hs)
  have hT1 := current_elapsed_locked_lt t0 w.ctx hrun
  have hT2 := current_elapsed_locked_le_running t0 w.ctx hrun
  have e1 := pomodoro_pause_running_ctx cfg t0 w hrun
  have e2 := pomodoro_resume_paused_work_ctx cfg t1 (pomodoro_pause cfg t0 w).2
    (by rw [e1]) (by rw [e1]; exact hph)
  have hrun2 : is_running (pomodoro_resume cfg t1 (pomodoro_pause cfg t0 w).2).2.ctx = true := by
    rw [e2]; rfl
  have e3 := pomodoro_pause_running_ctx cfg t1
    (pomodoro_resume cfg t1 (pomodoro_pause cfg t0 w).2).2 hrun2
  have hd : delta_seconds t1 (pomodoro_resume cfg t1 (pomodoro_pause cfg t0 w).2).2.ctx = 0 :=
    delta_seconds_self t1 _ (by rw [e2])
  have hel : (pomodoro_resume cfg t1 (pomodoro_pause cfg t0 w).2).2.ctx.elapsed_s =
      current_elapsed_locked t0 w.ctx := by rw [e2, e1]
  have hlen : (pomodoro_resume cfg t1 (pomodoro_pause cfg t0 w).2).2.ctx.phase_length_s =
      w.ctx.phase_length_s := by rw [e2, e1]
  have hE : current_elapsed_locked t1
      (pomodoro_resume cfg t1 (pomodoro_pause cfg t0 w).2).2.ctx =
      current_elapsed_locked t0 w.ctx := by
    conv => lhs; rw [current_elapsed_locked_eq]
    simp only [hrun2, hd, hel, hlen, Bool.not_true, Bool.false_eq_true, if_false,
      Nat.add_zero]
    rw [Nat.mod_eq_of_lt hT1]
    exact Nat.min_eq_left hT2
  rw [e3, hE]
  refine ⟨rfl, ?_, ?_, hlen, rfl⟩
  · show (pomodoro_resume cfg t1 (pomodoro_pause cfg t0 w).2).2.ctx.phase = _
    rw [e2]
  · show (pomodoro_resume cfg t1 (pomodoro_pause cfg t0 w).2).2.ctx.session = _
    rw [e2, e1]

/-- Witness for C12: a Work phase started at uptime 0, paused at 90500 ms after
one refresh tick, resumed and paused again an hour later. -/
theorem C12_pause_resume_round_trip_witness :
    (pomodoro_pause cfg_example 3690500
      (pomodoro_resume cfg_example 3690500 (pomodoro_pause cfg_example 90500
        (run cfg_example [(0, POMODORO_ACTION_START), (1000, UI_TICK)])).2).2).2.ctx.elapsed_s =
      current_elapsed_locked 90500
        (run cfg_example [(0, POMODORO_ACTION_START), (1000, UI_TICK)]).ctx :=
  (C12_pause_resume_round_trip cfg_example
    (run cfg_example [(0, POMODORO_ACTION_START), (1000, UI_TICK)])
    ⟨[(0, POMODORO_ACTION_START), (1000, UI_TICK)], by decide, rfl⟩ (by decide)
    90500 3690500 (by decide)).2.2.2.2

/-- C13: `pomodoro_resume` at clock `t`.  From a context Paused during Work the
result has state Working, phase Work, `phase_started_ms = t`, the refresh timer
armed, and `elapsed_s`, session and phase length unchanged.  From a context
Paused during Break, or in state OnBreak, the resulting system is exactly what
`complete_break_locked` leaves, followed by one forced snapshot. -/
theorem C13_resume (cfg : config) (t : Int) (w : world) :
    (w.ctx.state = POMODORO_STATE_PAUSED → w.ctx.phase = POMODORO_PHASE_WORK →
      (pomodoro_resume cfg t w).1 = 0 ∧
      (pomodoro_resume cfg t w).2.ctx =
        { state := POMODORO_STATE_WORK, phase := POMODORO_PHASE_WORK,
          session := w.ctx.session, phase_length_s := w.ctx.phase_length_s,
          elapsed_s := w.ctx.elapsed_s, phase_started_ms := t,
          ui_timer_running := true }) ∧
    (w.ctx.state = POMODORO_STATE_PAUSED → w.ctx.phase = POMODORO_PHASE_BREAK →
      pomodoro_resume cfg t w =
        (0, refresh_display_locked cfg t true (complete_break_locked t w))) ∧
    (w.ctx.state = POMODORO_STATE_BREAK →
      pomodoro_resume cfg t w =
        (0, refresh_display_locked cfg t true (complete_break_locked t w))) := by
  refine ⟨fun hs hp => ⟨?_, ?_⟩, fun hs hp => ?_, fun hs => ?_⟩
  · rw [pomodoro_resume_paused cfg t w hs]
  · rw [pomodoro_resume_paused_work_ctx cfg t w hs hp]
  · rw [pomodoro_resume_paused cfg t w hs, resume_paused_locked_break t w hp]
  · rw [pomodoro_resume_eq]
    simp [hs]

/-- Witness for C13: the break of session 1, paused at 1501000 ms and resumed
at 1600000 ms, is completed by the resume. -/
theorem C13_resume_witness :
    (run cfg_example [(0, POMODORO_ACTION_START), (1500000, UI_TICK),
        (1501000, POMODORO_ACTION_PAUSE)]).ctx.state = POMODORO_STATE_PAUSED ∧
    pomodoro_resume cfg_example 1600000
        (run cfg_example [(0, POMODORO_ACTION_START), (1500000, UI_TICK),
          (1501000, POMODORO_ACTION_PAUSE)]) =
      (0, refresh_display_locked cfg_example 1600000 true
        (complete_break_locked 1600000
          (run cfg_example [(0, POMODORO_ACTION_START), (1500000, UI_TICK),
            (1501000, POMODORO_ACTION_PAUSE)]))) :=
  ⟨by decide, (C13_resume cfg_example 1600000
    (run cfg_example [(0, POMODORO_ACTION_START), (1500000, UI_TICK),
      (1501000, POMODORO_ACTION_PAUSE)])).2.1 (by decide) (by decide)⟩

/-- C14: `pomodoro_stop` from every system returns 0 and yields the initial Idle
context (state Idle, phase None, session 0, elapsed 0, `phase_started_ms` 0,
phase length 1500, refresh timer disarmed) with the completion check cancelled,
and emits exactly one snapshot, with `force = true`. -/
theorem C14_stop_resets (cfg : config) (now : Int) (w : world) :
    (pomodoro_stop cfg now w).1 = 0 ∧
    (pomodoro_stop cfg now w).2.ctx =
      { state := POMODORO_STATE_IDLE, phase := POMODORO_PHASE_NONE, session := 0,
        phase_length_s := 1500, elapsed_s := 0, phase_started_ms := 0,
        ui_timer_running := false } ∧
    (pomodoro_stop cfg now w).2.ctx = ctx_init ∧
    (pomodoro_stop cfg now w).2.minute_tick_work = none ∧
    (pomodoro_stop cfg now w).2.display =
      w.display ++ [(snapshot_locked cfg now ctx_init, true)] := by
  rw [pomodoro_stop_eq]
  refine ⟨rfl, ?_, ?_, ?_, ?_⟩
  · simp only [refresh_display_locked_ctx, stop_locked_ctx]
    rfl
  · simp only [refresh_display_locked_ctx, stop_locked_ctx]
  · exact stop_locked_minute_tick w
  · simp only [refresh_display_locked, stop_locked_display, stop_locked_ctx]

/-- C15: in every reachable system and at every clock reading, `pomodoro_smart`
gives the same return value, the same resulting system and the same emitted
snapshot as `pomodoro_start` when the state is Idle, as `pomodoro_resume` when
Paused, as `pomodoro_break_skip` when OnBreak and as `pomodoro_pause` when
Working. -/
theorem C15_smart_dispatch (cfg : config) (w : world) (hr : reachable cfg w) (now : Int) :
    (w.ctx.state = POMODORO_STATE_IDLE →
      pomodoro_smart cfg now w = pomodoro_start cfg now w) ∧
    (w.ctx.state = POMODORO_STATE_PAUSED →
      pomodoro_smart cfg now w = pomodoro_resume cfg now w) ∧
    (w.ctx.state = POMODORO_STATE_BREAK →
      pomodoro_smart cfg now w = pomodoro_break_skip cfg now w) ∧
    (w.ctx.state = POMODORO_STATE_WORK →
      pomodoro_smart cfg now w = pomodoro_pause cfg now w) := by
  have hinv := reachable_ctx_inv cfg w hr
  refine ⟨fun hs => ?_, fun hs => ?_, fun hs => ?_, fun hs => ?_⟩
  · have hrun : is_running w.ctx = false := by simp [is_running, hs]
    rw [pomodoro_smart_eq]
    simp only [pomodoro_start, hrun, hs, if_true, Bool.false_eq_true, if_false]
  · rw [pomodoro_smart_eq, pomodoro_resume_paused cfg now w hs]
    simp [hs]
  · have hp : w.ctx.phase = POMODORO_PHASE_BREAK := hinv.2.2.1 hs
    rw [pomodoro_smart_eq]
    simp [pomodoro_break_skip, hs, hp]
  · have hrun : is_running w.ctx = true := (is_running_iff w.ctx).mpr (Or.inl hs)
    rw [pomodoro_smart_eq, pomodoro_pause_running cfg now w hrun]
    simp [hs]

/-- Witness for C15: during the first break the smart key acts as a break
skip. -/
theorem C15_smart_dispatch_witness :
    pomodoro_smart cfg_example 1600000
        (run cfg_example [(0, POMODORO_ACTION_START), (1500000, UI_TICK)]) =
      pomodoro_break_skip cfg_example 1600000
        (run cfg_example [(0, POMODORO_ACTION_START), (1500000, UI_TICK)]) :=
  (C15_smart_dispatch cfg_example
    (run cfg_example [(0, POMODORO_ACTION_START), (1500000, UI_TICK)])
    ⟨[(0, POMODORO_ACTION_START), (1500000, UI_TICK)], by decide, rfl⟩ 1600000).2.2.1
    (by decide)

/-- C16 (with a configuration whose ceiling expression is a valid C `int`):
when `phase == BREAK` and the phase length is below the ceiling,
`pomodoro_break_extend` sets the phase length to `min(phase_length_s + 60,
ceiling)` and leaves state, phase, session, `elapsed_s`, `phase_started_ms` and
the timer flag as they were; in every other context the whole system is
unchanged.  Hence the phase length never decreases and is never raised above
the ceiling.  The call returns 0. -/
theorem C16_break_extend (cfg : config) (hv : cfg.valid) (now : Int) (w : world) :
    (pomodoro_break_extend cfg now w).1 = 0 ∧
    (w.ctx.phase = POMODORO_PHASE_BREAK → w.ctx.phase_length_s < cfg.ceiling →
      (pomodoro_break_extend cfg now w).2.ctx =
        { state := w.ctx.state, phase := w.ctx.phase, session := w.ctx.session,
          phase_length_s := min (w.ctx.phase_length_s + 60) cfg.ceiling,
          elapsed_s := w.ctx.elapsed_s, phase_started_ms := w.ctx.phase_started_ms,
          ui_timer_running := w.ctx.ui_timer_running }) ∧
    (¬ (w.ctx.phase = POMODORO_PHASE_BREAK ∧ w.ctx.phase_length_s < cfg.ceiling) →
      (pomodoro_break_extend cfg now w).2 = w) ∧
    w.ctx.phase_length_s ≤ (pomodoro_break_extend cfg now w).2.ctx.phase_length_s ∧
    ((pomodoro_break_extend cfg now w).2.ctx.phase_length_s ≤ cfg.ceiling ∨
      (pomodoro_break_extend cfg now w).2.ctx.phase_length_s = w.ctx.phase_length_s) := by
  have hmod : w.ctx.phase_length_s < cfg.ceiling →
      (w.ctx.phase_length_s + 60) % UINT32_MOD = w.ctx.phase_length_s + 60 := by
    intro hlt
    simp only [config.valid] at hv
    simp only [UINT32_MOD]
    omega
  refine ⟨?_, fun hp hlt => ?_, fun hn => ?_, ?_, ?_⟩
  · unfold pomodoro_break_extend
    split <;> rfl
  · rw [pomodoro_break_extend_ctx]
    simp only [hp, hlt, and_self, if_true, hmod hlt]
  · unfold pomodoro_break_extend
    simp only [hn, if_false]
  · rw [pomodoro_break_extend_ctx]
    split
    · rename_i hc
      simp only [hmod hc.2]
      omega
    · exact le_refl _
  · rw [pomodoro_break_extend_ctx]
    split
    · exact Or.inl (Nat.min_le_right _ _)
    · exact Or.inr rfl

/-- Witness for C16: the first break extended once under the 15 minute
ceiling. -/
theorem C16_break_extend_witness :
    (pomodoro_break_extend cfg_example 1501000
      (run cfg_example [(0, POMODORO_ACTION_START), (1500000, UI_TICK)])).2.ctx.phase_length_s =
        360 ∧
    (pomodoro_break_extend cfg_example 1501000
      (run cfg_example [(0, POMODORO_ACTION_START), (1500000, UI_TICK)])).2.ctx =
      { state := POMODORO_STATE_BREAK, phase := POMODORO_PHASE_BREAK, session := 1,
        phase_length_s := min (300 + 60) cfg_example.ceiling,
        elapsed_s := 0, phase_started_ms := 1500000, ui_timer_running := true } :=
  ⟨by decide, (C16_break_extend cfg_example (by decide) 1501000
    (run cfg_example [(0, POMODORO_ACTION_START), (1500000, UI_TICK)])).2.1
    (by decide) (by decide)⟩

/-- C17: `pomodoro_break_skip` at clock `now`, for a context whose 8-bit session
counter is not at its maximum (every reachable context has `session ≤ 4`).
When `phase == BREAK` with session `s`: if `s + 1 > POMODORO_MAX_SESSIONS` the
result is the Idle reset (session 0, phase None, elapsed 0, phase length 1500,
refresh timer disarmed, completion check cancelled); otherwise it is a fresh
Work phase with session `s + 1`, state Working, elapsed 0,
`phase_started_ms = now`, phase length 1500 and the refresh timer armed.  When
the phase is not Break the system is unchanged.  The call returns 0. -/
theorem C17_break_skip (cfg : config) (now : Int) (w : world)
    (hs : w.ctx.session + 1 < UINT8_MOD) :
    (pomodoro_break_skip cfg now w).1 = 0 ∧
    (w.ctx.phase = POMODORO_PHASE_BREAK → w.ctx.session + 1 > POMODORO_MAX_SESSIONS →
      (pomodoro_break_skip cfg now w).2.ctx =
        { state := POMODORO_STATE_IDLE, phase := POMODORO_PHASE_NONE, session := 0,
          phase_length_s := 1500, elapsed_s := 0, phase_started_ms := 0,
          ui_timer_running := false } ∧
      (pomodoro_break_skip cfg now w).2.minute_tick_work = none) ∧
    (w.ctx.phase = POMODORO_PHASE_BREAK → ¬ (w.ctx.session + 1 > POMODORO_MAX_SESSIONS) →
      (pomodoro_break_skip cfg now w).2.ctx =
        { state := POMODORO_STATE_WORK, phase := POMODORO_PHASE_WORK,
          session := w.ctx.session + 1, phase_length_s := 1500, elapsed_s := 0,
          phase_started_ms := now, ui_timer_running := true }) ∧
    (w.ctx.phase ≠ POMODORO_PHASE_BREAK → (pomodoro_break_skip cfg now w).2 = w) := by
  have hm : (w.ctx.session + 1) % UINT8_MOD = w.ctx.session + 1 := Nat.mod_eq_of_lt hs
  refine ⟨?_, fun hp hgt => ⟨?_, ?_⟩, fun hp hle => ?_, fun hp => ?_⟩
  · unfold pomodoro_break_skip
    split <;> rfl
  · simp only [pomodoro_break_skip, hp, if_true, refresh_display_locked_ctx,
      complete_break_locked_ctx, hm, hgt]
    rfl
  · simp only [pomodoro_break_skip, hp, if_true]
    exact complete_break_locked_minute_tick_idle now w (by rw [hm]; exact hgt)
  · simp only [pomodoro_break_skip, hp, if_true, refresh_display_locked_ctx,
      complete_break_locked_ctx, hm, hle, if_false]
    rfl
  · simp only [pomodoro_break_skip, hp, if_false]

/-- Witness for C17: skipping the paused break of session 1 starts the Work
phase of session 2. -/
theorem C17_break_skip_witness :
    (pomodoro_break_skip cfg_example 1600000
      (run cfg_example [(0, POMODORO_ACTION_START), (1500000, UI_TICK),
        (1501000, POMODORO_ACTION_PAUSE)])).2.ctx =
      { state := POMODORO_STATE_WORK, phase := POMODORO_PHASE_WORK,
        session := (run cfg_example [(0, POMODORO_ACTION_START), (1500000, UI_TICK),
          (1501000, POMODORO_ACTION_PAUSE)]).ctx.session + 1,
        phase_length_s := 1500, elapsed_s := 0,
        phase_started_ms := 1600000, ui_timer_running := true } :=
  (C17_break_skip cfg_example 1600000
    (run cfg_example [(0, POMODORO_ACTION_START), (1500000, UI_TICK),
      (1501000, POMODORO_ACTION_PAUSE)]) (by decide)).2.2.1 (by decide) (by decide)

/-- C18, the claim as stated fails: `p` (the break of session 1 paused at
1501000 ms) and `r` (the same break left running, started at 1500000 ms) are
reachable and have the same session; at the clock reading 4294968795000 ms the
derived elapsed time of `r` has reached its phase length 300.  The skip on `p`
starts session 2, but the tick on `r` (either callback) leaves it OnBreak,
because the stored 300 plus the gap of 2^32 - 1 s wraps to 299 in the
completion test. -/
theorem C18_tick_misses_completion_after_wrap :
    clock_ok [(0, POMODORO_ACTION_START), (1500000, UI_TICK),
      (1501000, POMODORO_ACTION_PAUSE)] = true ∧
    (run cfg_example [(0, POMODORO_ACTION_START), (1500000, UI_TICK),
      (1501000, POMODORO_ACTION_PAUSE)]).ctx.state = POMODORO_STATE_PAUSED ∧
    (run cfg_example [(0, POMODORO_ACTION_START), (1500000, UI_TICK),
      (1501000, POMODORO_ACTION_PAUSE)]).ctx.phase = POMODORO_PHASE_BREAK ∧
    (run cfg_example [(0, POMODORO_ACTION_START), (1500000, UI_TICK)]).ctx.state =
      POMODORO_STATE_BREAK ∧
    (run cfg_example [(0, POMODORO_ACTION_START), (1500000, UI_TICK),
      (1501000, POMODORO_ACTION_PAUSE)]).ctx.session =
      (run cfg_example [(0, POMODORO_ACTION_START), (1500000, UI_TICK)]).ctx.session ∧
    current_elapsed_locked 4294968795000
      (run cfg_example [(0, POMODORO_ACTION_START), (1500000, UI_TICK)]).ctx =
      (run cfg_example [(0, POMODORO_ACTION_START), (1500000, UI_TICK)]).ctx.phase_length_s ∧
    (pomodoro_break_skip cfg_example 4294968795000
      (run cfg_example [(0, POMODORO_ACTION_START), (1500000, UI_TICK),
        (1501000, POMODORO_ACTION_PAUSE)])).2.ctx.state = POMODORO_STATE_WORK ∧
    (ui_timer_cb cfg_example 4294968795000
      (run cfg_example [(0, POMODORO_ACTION_START), (1500000, UI_TICK)])).ctx.state =
      POMODORO_STATE_BREAK ∧
    (minute_tick_cb cfg_example 4294968795000
      (run cfg_example [(0, POMODORO_ACTION_START), (1500000, UI_TICK)])).ctx.state =
      POMODORO_STATE_BREAK ∧
    (pomodoro_break_skip cfg_example 4294968795000
      (run cfg_example [(0, POMODORO_ACTION_START), (1500000, UI_TICK),
        (1501000, POMODORO_ACTION_PAUSE)])).2.ctx ≠
      (ui_timer_cb cfg_example 4294968795000
        (run cfg_example [(0, POMODORO_ACTION_START), (1500000, UI_TICK)])).ctx := by
  decide

/-- C18 as amended: for every context `p` paused during a Break and every
reachable system `r` that is OnBreak with the same session, at every clock
reading `t` at which the derived elapsed time of `r` has reached its phase
length and the gap in whole seconds plus the phase length stays below 2^32,
`pomodoro_break_skip` on `p` and a tick on `r` (either callback) leave the same
context, whatever the elapsed times and phase lengths of `p` and `r`. -/
theorem C18_skip_matches_tick (cfg : config) (p r : world) (hr : reachable cfg r)
    (_hps : p.ctx.state = POMODORO_STATE_PAUSED) (hpp : p.ctx.phase = POMODORO_PHASE_BREAK)
    (hrs : r.ctx.state = POMODORO_STATE_BREAK) (hsess : p.ctx.session = r.ctx.session)
    (t : Int) (hreach : current_elapsed_locked t r.ctx ≥ r.ctx.phase_length_s)
    (hgap : ((t - r.ctx.phase_started_ms) / 1000).toNat + r.ctx.phase_length_s
      < 4294967296) :
    (pomodoro_break_skip cfg t p).2.ctx = (ui_timer_cb cfg t r).ctx ∧
    (pomodoro_break_skip cfg t p).2.ctx = (minute_tick_cb cfg t r).ctx := by
  have hinv := reachable_ctx_inv cfg r hr
  have hrp : r.ctx.phase = POMODORO_PHASE_BREAK := hinv.2.2.1 hrs
  have hrun : is_running r.ctx = true := (is_running_iff r.ctx).mpr (Or.inr hrs)
  have hui := ui_timer_cb_ctx_of_reached cfg t r hrun hreach hgap
  have hskip : (pomodoro_break_skip cfg t p).2.ctx = (ui_timer_cb cfg t r).ctx := by
    rw [hui]
    unfold complete_phase_locked
    have hne : ¬ (POMODORO_PHASE_BREAK = POMODORO_PHASE_WORK) := by decide
    simp only [pomodoro_break_skip, hpp, if_true, refresh_display_locked_ctx,
      complete_break_locked_ctx, hrp, hsess, hne, if_false]
  exact ⟨hskip, by rw [minute_tick_cb_ctx]; exact hskip⟩

/-- Witness for C18: the break of session 1, skipped while paused and ticked
300 s after it began. -/
theorem C18_skip_matches_tick_witness :
    (pomodoro_break_skip cfg_example 1800000
      (run cfg_example [(0, POMODORO_ACTION_START), (1500000, UI_TICK),
        (1501000, POMODORO_ACTION_PAUSE)])).2.ctx =
      (ui_timer_cb cfg_example 1800000
        (run cfg_example [(0, POMODORO_ACTION_START), (1500000, UI_TICK)])).ctx :=
  (C18_skip_matches_tick cfg_example
    (run cfg_example [(0, POMODORO_ACTION_START), (1500000, UI_TICK),
      (1501000, POMODORO_ACTION_PAUSE)])
    (run cfg_example [(0, POMODORO_ACTION_START), (1500000, UI_TICK)])
    ⟨[(0, POMODORO_ACTION_START), (1500000, UI_TICK)], by decide, rfl⟩
    (by decide) (by decide) (by decide) (by decide) 1800000 (by decide) (by decide)).1

/-- C19: key-event routing in every reachable system.  With resume-on-any-key
enabled, a key-down event acts as `pomodoro_break_skip` when the phase is Break
(state OnBreak or Paused during the break), as `pomodoro_resume` when the state
is Paused during Work, and changes nothing when the state is Idle or Working; a
key-up event changes nothing.  With the flag disabled no key event changes
anything. -/
theorem C19_any_key_routing (cfg : config) (w : world) (hr : reachable cfg w) (now : Int) :
    (cfg.RESUME_ON_ANY_KEY = true →
      (w.ctx.phase = POMODORO_PHASE_BREAK →
        pomodoro_any_key_handler cfg now (some true) w = (pomodoro_break_skip cfg now w).2) ∧
      (w.ctx.state = POMODORO_STATE_PAUSED → w.ctx.phase = POMODORO_PHASE_WORK →
        pomodoro_any_key_handler cfg now (some true) w = (pomodoro_resume cfg now w).2) ∧
      (w.ctx.state = POMODORO_STATE_IDLE ∨ w.ctx.state = POMODORO_STATE_WORK →
        pomodoro_any_key_handler cfg now (some true) w = w)) ∧
    pomodoro_any_key_handler cfg now (some false) w = w ∧
    (cfg.RESUME_ON_ANY_KEY = false →
      ∀ ev : Option Bool, pomodoro_any_key_handler cfg now ev w = w) := by
  obtain ⟨h1, h2, h3, h4, h5, h6, h7⟩ := reachable_ctx_inv cfg w hr
  refine ⟨fun hf => ⟨fun hp => ?_, fun hs hp => ?_, fun hs => ?_⟩, ?_, fun hf ev => ?_⟩
  · have hst : w.ctx.state = POMODORO_STATE_BREAK ∨ w.ctx.state = POMODORO_STATE_PAUSED := by
      cases hc : w.ctx.state
      · have := h1.mp hc; rw [hp] at this; cases this
      · have := h2 hc; rw [hp] at this; cases this
      · exact Or.inl rfl
      · exact Or.inr rfl
    rcases hst with hb | hb <;>
      simp [pomodoro_any_key_handler, hf, hb, hp, is_break_phase]
  · simp [pomodoro_any_key_handler, hf, hs, hp, is_break_phase]
  · rcases hs with hi | hi <;> simp [pomodoro_any_key_handler, hf, hi]
  · unfold pomodoro_any_key_handler
    split <;> rfl
  · simp [pomodoro_any_key_handler, hf]

/-- Witness for C19: a key press during the paused break of session 1 skips the
break. -/
theorem C19_any_key_routing_witness :
    pomodoro_any_key_handler cfg_example 1600000 (some true)
        (run cfg_example [(0, POMODORO_ACTION_START), (1500000, UI_TICK),
          (1501000, POMODORO_ACTION_PAUSE)]) =
      (pomodoro_break_skip cfg_example 1600000
        (run cfg_example [(0, POMODORO_ACTION_START), (1500000, UI_TICK),
          (1501000, POMODORO_ACTION_PAUSE)])).2 :=
  ((C19_any_key_routing cfg_example
    (run cfg_example [(0, POMODORO_ACTION_START), (1500000, UI_TICK),
      (1501000, POMODORO_ACTION_PAUSE)])
    ⟨[(0, POMODORO_ACTION_START), (1500000, UI_TICK), (1501000, POMODORO_ACTION_PAUSE)],
      by decide, rfl⟩ 1600000).1 (by decide)).1 (by decide)

/-- C20: requests that do not apply to the current state return 0 and leave the
whole system as it was (no field of the context changes, the timers are
untouched, no snapshot is emitted): `pomodoro_pause` in Idle, `pomodoro_resume`
in Idle or Working, `pomodoro_break_extend` and `pomodoro_break_skip` when the
phase is not Break, `pomodoro_start` when Working or OnBreak.  Every one of the
seven operations returns 0 in every state. -/
theorem C20_invalid_requests_are_no_ops (cfg : config) (now : Int) (w : world) :
    (w.ctx.state = POMODORO_STATE_IDLE → pomodoro_pause cfg now w = (0, w)) ∧
    (w.ctx.state = POMODORO_STATE_IDLE ∨ w.ctx.state = POMODORO_STATE_WORK →
      pomodoro_resume cfg now w = (0, w)) ∧
    (w.ctx.phase ≠ POMODORO_PHASE_BREAK → pomodoro_break_extend cfg now w = (0, w)) ∧
    (w.ctx.phase ≠ POMODORO_PHASE_BREAK → pomodoro_break_skip cfg now w = (0, w)) ∧
    (w.ctx.state = POMODORO_STATE_WORK ∨ w.ctx.state = POMODORO_STATE_BREAK →
      pomodoro_start cfg now w = (0, w)) ∧
    (pomodoro_start cfg now w).1 = 0 ∧
    (pomodoro_pause cfg now w).1 = 0 ∧
    (pomodoro_stop cfg now w).1 = 0 ∧
    (pomodoro_smart cfg now w).1 = 0 ∧
    (pomodoro_resume cfg now w).1 = 0 ∧
    (pomodoro_break_extend cfg now w).1 = 0 ∧
    (pomodoro_break_skip cfg now w).1 = 0 := by
  refine ⟨fun hs => ?_, fun hs => ?_, fun hp => ?_, fun hp => ?_, fun hs => ?_,
    ?_, ?_, rfl, rfl, ?_, ?_, ?_⟩
  · rw [pomodoro_pause_eq]
    simp [is_running, hs]
  · rw [pomodoro_resume_eq]
    rcases hs with h | h <;> simp [h]
  · simp only [pomodoro_break_extend, hp, false_and, if_false]
  · simp only [pomodoro_break_skip, hp, if_false]
  · have hrun : is_running w.ctx = true := (is_running_iff w.ctx).mpr hs
    simp only [pomodoro_start, hrun, if_true]
  · unfold pomodoro_start
    split <;> rfl
  · rw [pomodoro_pause_eq]
    split
    · rfl
    · split <;> rfl
  · rw [pomodoro_resume_eq]
    split
    · rfl
    · split <;> rfl
  · unfold pomodoro_break_extend
    split <;> rfl
  · unfold pomodoro_break_skip
    split <;> rfl

/-- Witness for C20: a pause request before any start changes nothing. -/
theorem C20_invalid_requests_are_no_ops_witness :
    pomodoro_pause cfg_example 5000 world_init = (0, world_init) :=
  (C20_invalid_requests_are_no_ops cfg_example 5000 world_init).1 (by decide)

/-! ## Lemmas on the display log and the completion-check delay -/

theorem complete_work_locked_display (now : Int) (w : world) :
    (complete_work_locked now w).display = w.display := by
  simp only [complete_work_locked, schedule_minute_tick_locked_display,
    start_ui_timer_locked_eq]

theorem complete_break_locked_display (now : Int) (w : world) :
    (complete_break_locked now w).display = w.display := by
  unfold complete_break_locked
  simp only []
  split
  · simp only [cancel_timers_locked, stop_ui_timer_locked_eq]
  · simp only [schedule_minute_tick_locked_display, start_ui_timer_locked_eq,
      reset_phase_timing_locked]

theorem complete_phase_locked_display (now : Int) (w : world) :
    (complete_phase_locked now w).display = w.display := by
  unfold complete_phase_locked
  split
  · exact complete_work_locked_display now w
  · exact complete_break_locked_display now w

theorem ui_timer_cb_display (cfg : config) (now : Int) (w : world) :
    (ui_timer_cb cfg now w).display =
      w.display ++ [(snapshot_locked cfg now (ui_timer_cb cfg now w).ctx, false)] := by
  rw [ui_timer_cb_eq]
  simp only [refresh_display_locked]
  split
  · split
    · rw [complete_phase_locked_display]
    · rfl
  · rfl

theorem minute_tick_cb_display (cfg : config) (now : Int) (w : world)
    (hr : is_running w.ctx = true) :
    (minute_tick_cb cfg now w).display =
      w.display ++ [(snapshot_locked cfg now (minute_tick_cb cfg now w).ctx,
        decide (remaining_locked now
          { w.ctx with elapsed_s := current_elapsed_locked now w.ctx } = 0))] := by
  rw [minute_tick_cb_eq]
  simp only [hr, Bool.not_true, Bool.false_eq_true, if_false]
  split
  · rename_i hz
    simp only [refresh_display_locked, complete_phase_locked_display, hz, decide_True]
  · rename_i hz
    simp only [refresh_display_locked, schedule_minute_tick_locked_display, hz, decide_False]

theorem schedule_minute_tick_locked_running (now : Int) (w : world)
    (hr : is_running w.ctx = true) :
    schedule_minute_tick_locked now w =
      { ctx := w.ctx
        minute_tick_work := some (max 1 (min (remaining_locked now w.ctx) POMODORO_MINUTE_CHUNK))
        display := w.display } := by
  unfold schedule_minute_tick_locked
  simp only [hr, Bool.not_true, Bool.false_eq_true, if_false]
  congr 2
  simp only [POMODORO_MINUTE_CHUNK]
  split <;> omega

theorem resume_paused_locked_display (now : Int) (w : world) :
    (resume_paused_locked now w).display = w.display := by
  unfold resume_paused_locked
  split
  · exact complete_break_locked_display now w
  · simp only [schedule_minute_tick_locked_display, start_ui_timer_locked_eq]

/-- C21 (the code departs from the claim for the refresh tick): after
`pomodoro_start` at uptime 0, the refresh tick `ui_timer_cb` at 1500000 ms
completes the Work phase (state Working before, OnBreak after) and the snapshot
it emits carries `force = false`; the completion-check tick `minute_tick_cb` on
the same input performs the same completion and emits `force = true`.  In
general `ui_timer_cb` emits `force = false` on every path, while
`minute_tick_cb` on a running context emits `force = true` exactly when it
takes the completion branch. -/
theorem C21_ui_tick_completion_not_forced :
    (run cfg_example [(0, POMODORO_ACTION_START)]).ctx.state = POMODORO_STATE_WORK ∧
    (ui_timer_cb cfg_example 1500000
      (run cfg_example [(0, POMODORO_ACTION_START)])).ctx.state = POMODORO_STATE_BREAK ∧
    ((ui_timer_cb cfg_example 1500000
      (run cfg_example [(0, POMODORO_ACTION_START)])).display.getLast?.map
        (fun s => s.2)) = some false ∧
    (minute_tick_cb cfg_example 1500000
      (run cfg_example [(0, POMODORO_ACTION_START)])).ctx.state = POMODORO_STATE_BREAK ∧
    ((minute_tick_cb cfg_example 1500000
      (run cfg_example [(0, POMODORO_ACTION_START)])).display.getLast?.map
        (fun s => s.2)) = some true ∧
    (∀ (cfg : config) (now : Int) (w : world),
      (ui_timer_cb cfg now w).display =
        w.display ++ [(snapshot_locked cfg now (ui_timer_cb cfg now w).ctx, false)]) ∧
    (∀ (cfg : config) (now : Int) (w : world), is_running w.ctx = true →
      (minute_tick_cb cfg now w).display =
        w.display ++ [(snapshot_locked cfg now (minute_tick_cb cfg now w).ctx,
          decide (remaining_locked now
            { w.ctx with elapsed_s := current_elapsed_locked now w.ctx } = 0))]) := by
  refine ⟨by decide, by decide, by decide, by decide, by decide, ?_, ?_⟩
  · exact fun cfg now w => ui_timer_cb_display cfg now w
  · exact fun cfg now w hr => minute_tick_cb_display cfg now w hr

/-- C22: on every context with `state == PAUSED` (phase Work or Break, or any
other) and at every clock reading, `pomodoro_pause` and `pomodoro_resume` give
the same return value and the same resulting system: the same context, the
same timers and the same emitted snapshot, which is forced. -/
theorem C22_pause_on_paused_is_resume (cfg : config) (now : Int) (w : world)
    (hs : w.ctx.state = POMODORO_STATE_PAUSED) :
    pomodoro_pause cfg now w = pomodoro_resume cfg now w ∧
    (pomodoro_pause cfg now w).2.display =
      w.display ++ [(snapshot_locked cfg now (pomodoro_pause cfg now w).2.ctx, true)] := by
  have hrun : is_running w.ctx = false := by simp [is_running, hs]
  have hp : pomodoro_pause cfg now w =
      (0, refresh_display_locked cfg now true (resume_paused_locked now w)) := by
    rw [pomodoro_pause_eq]
    simp only [hrun, hs, Bool.false_eq_true, if_false, if_true]
  refine ⟨?_, ?_⟩
  · rw [hp, pomodoro_resume_paused cfg now w hs]
  · rw [hp]
    simp only [refresh_display_locked, resume_paused_locked_display]

/-- Witness for C22: the break of session 1, paused at 1501000 ms; a second
pause request at 1600000 ms acts as a resume. -/
theorem C22_pause_on_paused_is_resume_witness :
    pomodoro_pause cfg_example 1600000
        (run cfg_example [(0, POMODORO_ACTION_START), (1500000, UI_TICK),
          (1501000, POMODORO_ACTION_PAUSE)]) =
      pomodoro_resume cfg_example 1600000
        (run cfg_example [(0, POMODORO_ACTION_START), (1500000, UI_TICK),
          (1501000, POMODORO_ACTION_PAUSE)]) :=
  (C22_pause_on_paused_is_resume cfg_example 1600000
    (run cfg_example [(0, POMODORO_ACTION_START), (1500000, UI_TICK),
      (1501000, POMODORO_ACTION_PAUSE)]) (by decide)).1

/-- C23: on a running context `schedule_minute_tick_locked` arms the completion
check with a delay of `max(1, min(remaining_seconds, 60))` seconds and changes
nothing else; that delay lies in `[1, 60]` and is at most `remaining_seconds`
whenever `remaining_seconds ≥ 1`.  On a context that is not running (Idle or
Paused) it leaves the system, the pending completion check included, as it
was. -/
theorem C23_completion_check_delay (now : Int) (w : world) :
    (is_running w.ctx = true →
      (schedule_minute_tick_locked now w).minute_tick_work =
        some (max 1 (min (remaining_locked now w.ctx) 60)) ∧
      (schedule_minute_tick_locked now w).ctx = w.ctx ∧
      (schedule_minute_tick_locked now w).display = w.display ∧
      1 ≤ max 1 (min (remaining_locked now w.ctx) 60) ∧
      max 1 (min (remaining_locked now w.ctx) 60) ≤ 60 ∧
      (1 ≤ remaining_locked now w.ctx →
        max 1 (min (remaining_locked now w.ctx) 60) ≤ remaining_locked now w.ctx)) ∧
    (w.ctx.state = POMODORO_STATE_IDLE ∨ w.ctx.state = POMODORO_STATE_PAUSED →
      schedule_minute_tick_locked now w = w) := by
  refine ⟨fun hr => ?_, fun hs => ?_⟩
  · rw [schedule_minute_tick_locked_running now w hr]
    refine ⟨rfl, rfl, rfl, ?_, ?_, fun h1 => ?_⟩ <;> omega
  · have hrun : is_running w.ctx = false := by
      rcases hs with h | h <;> simp [is_running, h]
    unfold schedule_minute_tick_locked
    simp only [hrun, Bool.not_false, if_true]

/-- Witness for C23: 40 s before the end of the first Work phase the check is
armed 40 s ahead. -/
theorem C23_completion_check_delay_witness :
    (schedule_minute_tick_locked 1460000
      (run cfg_example [(0, POMODORO_ACTION_START)])).minute_tick_work =
      some (max 1 (min (remaining_locked 1460000
        (run cfg_example [(0, POMODORO_ACTION_START)]).ctx) 60)) ∧
    remaining_locked 1460000 (run cfg_example [(0, POMODORO_ACTION_START)]).ctx = 40 :=
  ⟨((C23_completion_check_delay 1460000
    (run cfg_example [(0, POMODORO_ACTION_START)])).1 (by decide)).1, by decide⟩

end Pomodoro
